import Mathlib

/-
  Verification development for the pacman repository (src/js/game.js and
  companions).  The game logic of `PacmanGame` in src/js/game.js is shallowly
  embedded below: continuous positions become rationals, the mutable game
  objects become records, and every place the program reads `Math.random()`
  becomes an explicit oracle argument.  Comparisons that the program makes
  on `Math.sqrt(d)` are embedded as the equivalent comparisons on the squared
  quantity (sqrt is strictly monotone on nonnegative reals, and both sides of
  each comparison in the program are nonnegative there).  Rendering-only
  state (canvas layers, particles, FPS counters, gradients) is omitted.
-/

namespace PacmanGameJs

/-- GAME_CONFIG.GAME_SPEED (pixels per second). -/
def GAME_SPEED : ℚ := 200

/-- The maze grid: rows of cells, cell values 0 = empty, 1 = wall,
2 = pellet, 3 = power pellet (exactly the numeric encoding of game.js). -/
abbrev GameMap := List (List ℕ)

/-- Number of columns, read as the length of row 0 (`this.gameMap[0].length`). -/
def mapCols (m : GameMap) : ℕ := (m.headD []).length

/-- CANVAS_WIDTH = CLASSIC_COLS * GRID_SIZE (CLASSIC_COLS is set from the map). -/
def canvasW (m : GameMap) (gs : ℚ) : ℚ := (mapCols m : ℚ) * gs

/-- CANVAS_HEIGHT = CLASSIC_ROWS * GRID_SIZE. -/
def canvasH (m : GameMap) (gs : ℚ) : ℚ := (m.length : ℚ) * gs

/-- Reading the cell at integer grid coordinates, `none` when the program's
in-bounds guard `gridY >= 0 && gridY < map.length && gridX >= 0 &&
gridX < map[gridY].length` fails. -/
def cellAt (m : GameMap) (gx gy : ℤ) : Option ℕ :=
  if 0 ≤ gy ∧ gy < (m.length : ℤ) ∧ 0 ≤ gx ∧ gx < ((m.getD gy.toNat []).length : ℤ) then
    some ((m.getD gy.toNat []).getD gx.toNat 0)
  else
    none

/-- Writing a cell (`this.gameMap[gridY][gridX] = v`). -/
def setCell (m : GameMap) (gx gy : ℤ) (v : ℕ) : GameMap :=
  m.set gy.toNat ((m.getD gy.toNat []).set gx.toNat v)

/-- countPellets: the number of cells holding 2 (pellet) or 3 (power pellet). -/
def countPellets (m : GameMap) : ℕ :=
  (m.map (fun r => r.countP (fun c => c == 2 || c == 3))).sum

/-- isValidPosition(x, y, size): inside the canvas and not on a wall cell;
out-of-grid probes that survive the canvas bound check count as valid. -/
def isValidPosition (m : GameMap) (gs : ℚ) (x y size : ℚ) : Bool :=
  if x - size < 0 ∨ x + size > canvasW m gs ∨ y - size < 0 ∨ y + size > canvasH m gs then
    false
  else
    let gridX : ℤ := ⌊x / gs⌋
    let gridY : ℤ := ⌊y / gs⌋
    match cellAt m gridX gridY with
    | some c => decide (c ≠ 1)
    | none => true

/-- The `directions` table: 0 right, 1 down, 2 left, 3 up.  Direction values
in the program are always 0..3; any other value is mapped like 3. -/
def dirVec : ℕ → ℚ × ℚ
  | 0 => (1, 0)
  | 1 => (0, 1)
  | 2 => (-1, 0)
  | _ => (0, -1)

/-- updateTunnelRows: rows whose both border cells are non-walls
(`map[y][0] !== 1 && map[y][cols-1] !== 1`). -/
def updateTunnelRows (m : GameMap) : List ℕ :=
  let cols := mapCols m
  (List.range m.length).filter fun y =>
    (m.getD y []).get? 0 ≠ some 1 ∧ (m.getD y []).get? (cols - 1) ≠ some 1

/-- this.tunnelRows.has(row), where row is the floored y cell (an integer,
so a negative row is never a member). -/
def isTunnelRow (tun : List ℕ) (row : ℤ) : Bool :=
  tun.any fun r => (r : ℤ) == row

/-- The ASCII maze template of createDefaultMap, verbatim. -/
def asciiMaze : List String :=
  [ "############################",
    "#............##............#",
    "#.####.#####.##.#####.####.#",
    "#o####.#####.##.#####.####o#",
    "#.####.#####.##.#####.####.#",
    "#..........................#",
    "#.####.##.########.##.####.#",
    "#.####.##.########.##.####.#",
    "#......##....##....##......#",
    "######.##### ## #####.######",
    "######.##### ## #####.######",
    "######.##          ##.######",
    "######.## ######## ##.######",
    "######.## #      # ##.######",
    "#............##............#",
    "######.## #      # ##.######",
    "######.## ######## ##.######",
    "######.##          ##.######",
    "######.## ######## ##.######",
    "######.## ######## ##.######",
    "#............##............#",
    "#.####.#####.##.#####.####.#",
    "#.####.#####.##.#####.####.#",
    "#o..##.......  .......##..o#",
    "###.##.##.########.##.##.###",
    "#......##....##....##......#",
    "#.##########.##.##########.#",
    "#..........................#",
    "############################" ]

/-- The character-to-cell conversion of createDefaultMap:
'#' ↦ 1, '.' ↦ 2, 'o' ↦ 3, anything else ↦ 0. -/
def charToCell (ch : Char) : ℕ :=
  if ch = '#' then 1 else if ch = '.' then 2 else if ch = 'o' then 3 else 0

/-- createDefaultMap: the numeric grid built from the ASCII template. -/
def createDefaultMap : GameMap :=
  asciiMaze.map fun s => s.data.map charToCell

/-- The arrow-key flags sampled by updatePacman. -/
structure Keys where
  up : Bool
  down : Bool
  left : Bool
  right : Bool
deriving DecidableEq

/-- The protagonist object (positions and sizes in pixels). -/
structure Pacman where
  x : ℚ
  y : ℚ
  size : ℚ
  speed : ℚ
  direction : ℕ
  mouthOpen : ℚ
  mouthDirection : ℚ
  gridX : ℤ
  gridY : ℤ
deriving DecidableEq

/-- A pursuer object, as built in initializeGameObjects.  scatterTimer,
chaseTimer and lastDirectionUpdate start life absent (JS `undefined`) and
the program tests them with falsy checks, so they are Options here; the
falsy test `!t` is `t = none ∨ t = some 0`. -/
structure Ghost where
  x : ℚ
  y : ℚ
  size : ℚ
  speed : ℚ
  name : String
  personality : String
  direction : ℕ
  mode : String
  gridX : ℤ
  gridY : ℤ
  modeTimer : ℚ
  inGhostHouse : Bool
  scatterTimer : Option ℚ
  chaseTimer : Option ℚ
  lastDirectionUpdate : Option ℚ
deriving DecidableEq

/-- JS falsy-defaulting read: `if (!t) t = d` followed by using t. -/
def falsyD (o : Option ℚ) (d : ℚ) : ℚ :=
  match o with
  | none => d
  | some q => if q = 0 then d else q

/-- The candidate position computed by updatePacman for the desired
direction nd: position + direction unit vector × speed × dt. -/
def pacmanCandidate (pac : Pacman) (nd : ℕ) (dt : ℚ) : ℚ × ℚ :=
  (pac.x + (dirVec nd).1 * pac.speed * dt, pac.y + (dirVec nd).2 * pac.speed * dt)

/-- The candidate position computed by updateGhosts for the current heading. -/
def ghostCandidate (g : Ghost) (dt : ℚ) : ℚ × ℚ :=
  (g.x + (dirVec g.direction).1 * g.speed * dt, g.y + (dirVec g.direction).2 * g.speed * dt)

/-- The GameState class (gameStartTime, a wall-clock value, is omitted). -/
structure GameState where
  current : String
  score : ℤ
  level : ℤ
  lives : ℤ
  pelletsRemaining : ℤ
  powerPelletActive : Bool
  powerPelletTimer : ℚ
deriving DecidableEq

/-- GameState.reset(). -/
def GameState.reset (_s : GameState) : GameState :=
  { current := "playing", score := 0, level := 1, lives := 3,
    pelletsRemaining := 0, powerPelletActive := false, powerPelletTimer := 0 }

/-- GameState.addScore(points). -/
def GameState.addScore (s : GameState) (points : ℤ) : GameState :=
  { s with score := s.score + points }

/-- GameState.loseLife(): decrement lives, switch to gameOver at 0 or below. -/
def GameState.loseLife (s : GameState) : GameState :=
  let lives := s.lives - 1
  { s with lives := lives, current := if lives ≤ 0 then "gameOver" else s.current }

/-- The input-priority computation at the top of updatePacman: each held key
overwrites in the order up, down, left, right. -/
def desiredDirection (keys : Keys) (cur : ℕ) : ℕ :=
  let d := cur
  let d := if keys.up then 3 else d
  let d := if keys.down then 1 else d
  let d := if keys.left then 2 else d
  if keys.right then 0 else d

/-- The accepted-move branch of updatePacman: commit position, direction,
grid cell, and advance the mouth animation. -/
def pacmanAccepted (gs : ℚ) (pac : Pacman) (nd : ℕ) (newX newY : ℚ) : Pacman :=
  let mo := pac.mouthOpen + pac.mouthDirection * (3/20)
  let (mo, md) :=
    if mo ≥ 1 then ((1 : ℚ), (-1 : ℚ))
    else if mo ≤ 0 then (0, 1)
    else (mo, pac.mouthDirection)
  { pac with
      direction := nd, x := newX, y := newY,
      gridX := ⌊newX / gs⌋, gridY := ⌊newY / gs⌋,
      mouthOpen := mo, mouthDirection := md }

/-- updatePacman(deltaTime): read the key intent, compute the candidate
position, wrap through side tunnels when applicable, otherwise accept the
step iff isValidPosition holds. -/
def updatePacman (m : GameMap) (gs : ℚ) (tun : List ℕ) (pac : Pacman)
    (keys : Keys) (dt : ℚ) : Pacman :=
  let nd := desiredDirection keys pac.direction
  let d := dirVec nd
  let newX := (pacmanCandidate pac nd dt).1
  let newY := (pacmanCandidate pac nd dt).2
  let cols : ℚ := (mapCols m : ℚ)
  let row : ℤ := ⌊pac.y / gs⌋
  if isTunnelRow tun row ∧ d.1 < 0 ∧ pac.x - pac.size ≤ 0 then
    let x := (cols - 1 + 1/2) * gs
    { pac with
        direction := nd, x := x, y := ((row : ℚ) + 1/2) * gs,
        gridX := ⌊x / gs⌋, gridY := row }
  else if isTunnelRow tun row ∧ d.1 > 0 ∧ pac.x + pac.size ≥ cols * gs then
    let x := (1/2) * gs
    { pac with
        direction := nd, x := x, y := ((row : ℚ) + 1/2) * gs,
        gridX := ⌊x / gs⌋, gridY := row }
  else if isValidPosition m gs newX newY pac.size then
    pacmanAccepted gs pac nd newX newY
  else
    pac

/-- getGhostTarget(ghost).  `randPt` stands for the pair of
`Math.random() * CANVAS_WIDTH/HEIGHT` draws used by the frightened and
erratic branches; `clydeChase` stands for `Math.random() < 0.7`.  The
patrol comparison `sqrt(dsq) > 8 * GRID_SIZE` is embedded on squares. -/
def getGhostTarget (m : GameMap) (gs : ℚ) (pac : Pacman) (g : Ghost)
    (randPt : ℚ × ℚ) (clydeChase : Bool) : ℚ × ℚ :=
  if g.mode = "frightened" then
    randPt
  else if g.mode = "scatter" then
    if g.name = "Blinky" then (canvasW m gs - 40, 40)
    else if g.name = "Pinky" then (40, 40)
    else if g.name = "Inky" then (canvasW m gs - 40, canvasH m gs - 40)
    else if g.name = "Clyde" then (40, canvasH m gs - 40)
    else (pac.x, pac.y)
  else if g.personality = "aggressive" then
    (pac.x, pac.y)
  else if g.personality = "ambush" then
    let d := dirVec pac.direction
    (pac.x + d.1 * 4 * gs, pac.y + d.2 * 4 * gs)
  else if g.personality = "patrol" then
    if (pac.x - g.x) ^ 2 + (pac.y - g.y) ^ 2 > (8 * gs) ^ 2 then (pac.x, pac.y)
    else (40, canvasH m gs - 40)
  else if g.personality = "random" then
    if clydeChase then (pac.x, pac.y) else randPt
  else
    (pac.x, pac.y)

/-- The probe used by chooseGhostDirection: one tenth of a second ahead. -/
def ghostProbe (g : Ghost) (d : ℕ) : ℚ × ℚ :=
  (g.x + (dirVec d).1 * g.speed * (1/10), g.y + (dirVec d).2 * g.speed * (1/10))

/-- Squared Euclidean distance from the probe in direction d to the target. -/
def candDistSq (g : Ghost) (target : ℚ × ℚ) (d : ℕ) : ℚ :=
  (target.1 - (ghostProbe g d).1) ^ 2 + (target.2 - (ghostProbe g d).2) ^ 2

/-- Direction d survives chooseGhostDirection's two guards: it is not the
excluded reverse of the current heading, and its probe is a valid position. -/
def candLegal (m : GameMap) (gs : ℚ) (g : Ghost) (exclude : Bool) (d : ℕ) : Bool :=
  !(d == (g.direction + 2) % 4 && exclude)
    && isValidPosition m gs (ghostProbe g d).1 (ghostProbe g d).2 g.size

/-- One iteration of chooseGhostDirection's forEach: the accumulator holds
(bestDirection, bestDistance), with `none` standing for Infinity.  The
comparison `distance < bestDistance` is embedded on squared distances. -/
def chooseStep (m : GameMap) (gs : ℚ) (g : Ghost) (target : ℚ × ℚ)
    (exclude : Bool) (acc : ℕ × Option ℚ) (d : ℕ) : ℕ × Option ℚ :=
  if d == (g.direction + 2) % 4 && exclude then acc
  else if isValidPosition m gs (ghostProbe g d).1 (ghostProbe g d).2 g.size then
    let dsq := candDistSq g target d
    match acc.2 with
    | none => (d, some dsq)
    | some b => if dsq < b then (d, some dsq) else acc
  else acc

/-- chooseGhostDirection(ghost, target).  `exclude` stands for the single
`Math.random() > 0.2` draw (evaluated only at the reverse direction). -/
def chooseGhostDirection (m : GameMap) (gs : ℚ) (g : Ghost) (target : ℚ × ℚ)
    (exclude : Bool) : ℕ :=
  (([0, 1, 2, 3] : List ℕ).foldl (chooseStep m gs g target exclude)
    (g.direction, none)).1

/-- The scatter/chase schedule half of updateGhostAI: in scatter mode the
(falsy-defaulted 7 second) timer counts down and flips to a fresh 20 second
chase on expiry; in chase mode the (falsy-defaulted 20 second) timer counts
down and flips to a fresh 7 second scatter; any other mode is untouched. -/
def ghostScheduleStep (g : Ghost) (dt : ℚ) : Ghost :=
  if g.mode = "scatter" then
    let st := falsyD g.scatterTimer 7 - dt
    if st ≤ 0 then { g with scatterTimer := some st, mode := "chase", chaseTimer := some 20 }
    else { g with scatterTimer := some st }
  else if g.mode = "chase" then
    let ct := falsyD g.chaseTimer 20 - dt
    if ct ≤ 0 then { g with chaseTimer := some ct, mode := "scatter", scatterTimer := some 7 }
    else { g with chaseTimer := some ct }
  else g

/-- updateGhostAI(ghost, deltaTime): tick the scatter/chase schedule, then
re-select the direction once half a second of simulated time accumulates.
The target is computed from the incoming ghost, before the mode flips. -/
def updateGhostAI (m : GameMap) (gs : ℚ) (pac : Pacman) (g : Ghost) (dt : ℚ)
    (randPt : ℚ × ℚ) (clydeChase : Bool) (exclude : Bool) : Ghost :=
  let target := getGhostTarget m gs pac g randPt clydeChase
  let g2 := ghostScheduleStep g dt
  let lu := falsyD g2.lastDirectionUpdate 0 + dt
  if lu > 1/2 then
    { g2 with
        lastDirectionUpdate := some 0,
        direction := chooseGhostDirection m gs g2 target exclude }
  else
    { g2 with lastDirectionUpdate := some lu }

/-- The movement half of updateGhosts (after the AI update): candidate step,
tunnel wrapping, validity check, and direction re-selection on rejection.
The re-selection calls getGhostTarget afresh, hence the oracle arguments. -/
def ghostMove (m : GameMap) (gs : ℚ) (tun : List ℕ) (pac : Pacman) (g : Ghost)
    (dt : ℚ) (randPt : ℚ × ℚ) (clydeChase : Bool) (exclude : Bool) : Ghost :=
  let newX := (ghostCandidate g dt).1
  let newY := (ghostCandidate g dt).2
  let cols : ℚ := (mapCols m : ℚ)
  let row : ℤ := ⌊g.y / gs⌋
  if isTunnelRow tun row ∧ newX < -gs ∧ g.direction = 2 then
    { g with x := cols * gs + gs }
  else if isTunnelRow tun row ∧ newX > cols * gs + gs ∧ g.direction = 0 then
    { g with x := -gs }
  else if isValidPosition m gs newX newY g.size then
    { g with x := newX, y := newY, gridX := ⌊newX / gs⌋, gridY := ⌊newY / gs⌋ }
  else
    { g with
        direction := chooseGhostDirection m gs g
          (getGhostTarget m gs pac g randPt clydeChase) exclude }

/-- One ghost's full updateGhosts body: tick modeTimer, release from the
ghost house when due, skip movement while waiting, else AI then movement. -/
def updateGhost (m : GameMap) (gs : ℚ) (tun : List ℕ) (pac : Pacman) (g : Ghost)
    (dt : ℚ) (randPt : ℚ × ℚ) (clydeChase : Bool) (exclude : Bool) : Ghost :=
  let g := { g with modeTimer := g.modeTimer - dt }
  let g :=
    if g.inGhostHouse ∧ g.modeTimer ≤ 0 then
      { g with
          inGhostHouse := false, y := gs * (23/2), direction := 3,
          mode := "scatter" }
    else g
  if g.inGhostHouse then g
  else
    ghostMove m gs tun pac (updateGhostAI m gs pac g dt randPt clydeChase exclude)
      dt randPt clydeChase exclude

/-- The power-pellet expiry step in update(): count the timer down and, on
expiry, return every frightened ghost to scatter at normal speed with a
short (3 second) scatter period. -/
def powerPelletStep (st : GameState) (ghosts : List Ghost) (dt : ℚ) :
    GameState × List Ghost :=
  if st.powerPelletActive then
    let t := st.powerPelletTimer - dt
    if t ≤ 0 then
      ({ st with powerPelletTimer := t, powerPelletActive := false },
       ghosts.map fun g =>
         if g.mode = "frightened" then
           { g with
               mode := "scatter", speed := GAME_SPEED * (4/5),
               scatterTimer := some 3 }
         else g)
    else ({ st with powerPelletTimer := t }, ghosts)
  else (st, ghosts)

/-- The frightening side effect of eating a power pellet: every ghost that
is neither waiting in the house nor dead turns frightened, slows to
0.6 × GAME_SPEED and reverses heading; others are untouched. -/
def frightenGhost (g : Ghost) : Ghost :=
  if ¬g.inGhostHouse ∧ g.mode ≠ "dead" then
    { g with
        mode := "frightened", speed := GAME_SPEED * (3/5),
        direction := (g.direction + 2) % 4 }
  else g

/-- The pellet-collection half of checkCollisions: read the protagonist's
cell; a pellet scores 10, a power pellet scores 50, activates the 8 second
power state and frightens the eligible ghosts; both empty the cell and
decrement the remaining-pellet count. -/
def eatPellets (m : GameMap) (gs : ℚ) (st : GameState) (ghosts : List Ghost)
    (pac : Pacman) : GameMap × GameState × List Ghost :=
  let gridX : ℤ := ⌊pac.x / gs⌋
  let gridY : ℤ := ⌊pac.y / gs⌋
  if cellAt m gridX gridY = some 2 then
    (setCell m gridX gridY 0,
     { st.addScore 10 with pelletsRemaining := st.pelletsRemaining - 1 },
     ghosts)
  else if cellAt m gridX gridY = some 3 then
    (setCell m gridX gridY 0,
     { st.addScore 50 with
         pelletsRemaining := st.pelletsRemaining - 1,
         powerPelletActive := true, powerPelletTimer := 8 },
     ghosts.map frightenGhost)
  else
    (m, st, ghosts)

/-- resetPositions(): protagonist to (1.5, 1.5) cells, ghost i to
(5 + i, 5) cells; grid fields are not updated by the program. -/
def resetPositions (gs : ℚ) (pac : Pacman) (ghosts : List Ghost) :
    Pacman × List Ghost :=
  ({ pac with x := gs * (3/2), y := gs * (3/2) },
   ghosts.mapIdx fun i g => { g with x := gs * (5 + (i : ℚ)), y := gs * 5 })

/-- The ghost-contact half of checkCollisions for the ghost at index i:
on contact (center distance below the summed radii, embedded on squares),
an active power state scores 200 and teleports that ghost to cell (5,5);
otherwise a life is lost and all positions are reset. -/
def collideGhost (gs : ℚ) (st : GameState) (pac : Pacman) (ghosts : List Ghost)
    (i : ℕ) : GameState × Pacman × List Ghost :=
  match ghosts.get? i with
  | none => (st, pac, ghosts)
  | some g =>
    if (pac.x - g.x) ^ 2 + (pac.y - g.y) ^ 2 < (pac.size + g.size) ^ 2 then
      if st.powerPelletActive then
        (st.addScore 200, pac, ghosts.set i { g with x := gs * 5, y := gs * 5 })
      else
        let r := resetPositions gs pac ghosts
        (st.loseLife, r.1, r.2)
    else (st, pac, ghosts)

/-- The whole ghost-collision forEach of checkCollisions. -/
def checkGhostCollisions (gs : ℚ) (st : GameState) (pac : Pacman)
    (ghosts : List Ghost) : GameState × Pacman × List Ghost :=
  (List.range ghosts.length).foldl
    (fun acc i => collideGhost gs acc.1 acc.2.1 acc.2.2 i) (st, pac, ghosts)

/-- The whole game, as far as the session-level claims need it. -/
structure Game where
  state : GameState
  gameMap : GameMap
  tunnelRows : List ℕ
  pacman : Pacman
  ghosts : List Ghost
deriving DecidableEq

/-- The protagonist built by initializeGameObjects. -/
def initialPacman (m : GameMap) (gs : ℚ) : Pacman :=
  let startGX : ℕ := mapCols m / 2
  let startGY : ℕ := m.length - 2
  { x := gs * ((startGX : ℚ) + 1/2), y := gs * ((startGY : ℚ) + 1/2),
    size := gs * (2/5), speed := GAME_SPEED, direction := 2,
    mouthOpen := 0, mouthDirection := 1,
    gridX := (startGX : ℤ), gridY := (startGY : ℤ) }

/-- The four ghosts built by initializeGameObjects (house center at
(⌊cols/2⌋ + 0.5, ⌊rows/2⌋ + 0.5) cells). -/
def initialGhosts (m : GameMap) (gs : ℚ) : List Ghost :=
  let cx : ℚ := (mapCols m / 2 : ℕ) + 1/2
  let cy : ℚ := (m.length / 2 : ℕ) + 1/2
  [ { x := gs * cx, y := gs * (cy - 1), size := gs * (2/5),
      speed := GAME_SPEED * (4/5), name := "Blinky", personality := "aggressive",
      direction := 3, mode := "scatter", gridX := ⌊cx⌋, gridY := ⌊cy - 1⌋,
      modeTimer := 0, inGhostHouse := false,
      scatterTimer := none, chaseTimer := none, lastDirectionUpdate := none },
    { x := gs * (cx - 1), y := gs * cy, size := gs * (2/5),
      speed := GAME_SPEED * (4/5), name := "Pinky", personality := "ambush",
      direction := 0, mode := "scatter", gridX := ⌊cx - 1⌋, gridY := ⌊cy⌋,
      modeTimer := 2, inGhostHouse := true,
      scatterTimer := none, chaseTimer := none, lastDirectionUpdate := none },
    { x := gs * cx, y := gs * cy, size := gs * (2/5),
      speed := GAME_SPEED * (4/5), name := "Inky", personality := "patrol",
      direction := 2, mode := "scatter", gridX := ⌊cx⌋, gridY := ⌊cy⌋,
      modeTimer := 4, inGhostHouse := true,
      scatterTimer := none, chaseTimer := none, lastDirectionUpdate := none },
    { x := gs * (cx + 1), y := gs * cy, size := gs * (2/5),
      speed := GAME_SPEED * (4/5), name := "Clyde", personality := "random",
      direction := 2, mode := "scatter", gridX := ⌊cx + 1⌋, gridY := ⌊cy⌋,
      modeTimer := 6, inGhostHouse := true,
      scatterTimer := none, chaseTimer := none, lastDirectionUpdate := none } ]

/-- nextLevel(): bump the level, rebuild the default grid, recount pellets,
recompute tunnel rows and reset positions; score and lives are untouched. -/
def nextLevelGame (gs : ℚ) (game : Game) : Game :=
  let m := createDefaultMap
  let r := resetPositions gs game.pacman game.ghosts
  { state := { game.state with
                 level := game.state.level + 1,
                 pelletsRemaining := (countPellets m : ℤ) },
    gameMap := m, tunnelRows := updateTunnelRows m,
    pacman := r.1, ghosts := r.2 }

/-- The win-condition check at the end of update(). -/
def winCheck (gs : ℚ) (game : Game) : Game :=
  if game.state.pelletsRemaining ≤ 0 then nextLevelGame gs game else game

/-- restart(): reset the session state, rebuild the map and the objects,
recount pellets and recompute tunnel rows. -/
def restart (gs : ℚ) (game : Game) : Game :=
  let st := game.state.reset
  let m := createDefaultMap
  { state := { st with pelletsRemaining := (countPellets m : ℤ) },
    gameMap := m, tunnelRows := updateTunnelRows m,
    pacman := initialPacman m gs, ghosts := initialGhosts m gs }

/-- The 'r'/'R' case of handleKeyDown: restart only from the gameOver phase. -/
def handleKeyR (gs : ℚ) (game : Game) : Game :=
  if game.state.current = "gameOver" then restart gs game else game

/-- The schedule step never touches position, geometry, heading or the
direction-decision clock. -/
theorem ghostScheduleStep_fields (g : Ghost) (dt : ℚ) :
    (ghostScheduleStep g dt).direction = g.direction ∧
    (ghostScheduleStep g dt).lastDirectionUpdate = g.lastDirectionUpdate ∧
    (ghostScheduleStep g dt).x = g.x ∧
    (ghostScheduleStep g dt).y = g.y ∧
    (ghostScheduleStep g dt).speed = g.speed ∧
    (ghostScheduleStep g dt).size = g.size := by
  simp only [ghostScheduleStep]
  split_ifs <;> exact ⟨rfl, rfl, rfl, rfl, rfl, rfl⟩

/-- A ghost in neither scatter nor chase mode is untouched by the schedule
step. -/
theorem ghostScheduleStep_of_other (g : Ghost) (dt : ℚ)
    (h1 : ¬ g.mode = "scatter") (h2 : ¬ g.mode = "chase") :
    ghostScheduleStep g dt = g := by
  rw [ghostScheduleStep, if_neg h1, if_neg h2]

/-- chooseGhostDirection only reads the heading, position, speed and size
of the ghost. -/
theorem chooseGhostDirection_congr (m : GameMap) (gs : ℚ) {g g2 : Ghost}
    (target : ℚ × ℚ) (exclude : Bool)
    (h1 : g2.direction = g.direction) (h2 : g2.x = g.x) (h3 : g2.y = g.y)
    (h4 : g2.speed = g.speed) (h5 : g2.size = g.size) :
    chooseGhostDirection m gs g2 target exclude =
      chooseGhostDirection m gs g target exclude := by
  have hf : chooseStep m gs g2 target exclude = chooseStep m gs g target exclude := by
    funext acc d
    simp only [chooseStep, ghostProbe, candDistSq, h1, h2, h3, h4, h5]
  rw [chooseGhostDirection, chooseGhostDirection, hf, h1]


/-
  Helper objects used as concrete inputs by witnesses and counterexamples.
-/

/-- A concrete protagonist placed at (100, 100) with the constructed size
0.4 × 19 and speed GAME_SPEED. -/
def samplePac : Pacman :=
  { x := 100, y := 100, size := 38/5, speed := 200, direction := 2,
    mouthOpen := 0, mouthDirection := 1, gridX := 5, gridY := 5 }

/-- A concrete pursuer with the constructed size 0.4 × 19 and speed
0.8 × GAME_SPEED, out of the ghost house. -/
def sampleGhost : Ghost :=
  { x := 100, y := 100, size := 38/5, speed := 160, name := "Blinky",
    personality := "aggressive", direction := 0, mode := "scatter",
    gridX := 5, gridY := 5, modeTimer := 0, inGhostHouse := false,
    scatterTimer := none, chaseTimer := none, lastDirectionUpdate := none }

/-- A concrete playing-phase session state. -/
def samplePlaying : GameState :=
  { current := "playing", score := 30, level := 1, lives := 3,
    pelletsRemaining := 5, powerPelletActive := false, powerPelletTimer := 0 }

/-- C10: in the built-in maze template every row's leftmost and rightmost
cells are walls, the tunnel-row set computed at load time is therefore
empty, no integer row is ever a tunnel row, and consequently the tunnel
wrap branches of updatePacman and of the ghost movement step are
unreachable on the default map: both reduce to the plain
validity-checked step for every agent state, key state and time step. -/
theorem c10_default_map_tunnel_unreachable :
    (createDefaultMap.all fun row =>
        decide (row.get? 0 = some 1 ∧
          row.get? (mapCols createDefaultMap - 1) = some 1)) = true ∧
    updateTunnelRows createDefaultMap = [] ∧
    (∀ row : ℤ, isTunnelRow (updateTunnelRows createDefaultMap) row = false) ∧
    (∀ (gs : ℚ) (pac : Pacman) (keys : Keys) (dt : ℚ),
      updatePacman createDefaultMap gs (updateTunnelRows createDefaultMap) pac keys dt =
        if isValidPosition createDefaultMap gs
            (pacmanCandidate pac (desiredDirection keys pac.direction) dt).1
            (pacmanCandidate pac (desiredDirection keys pac.direction) dt).2 pac.size then
          pacmanAccepted gs pac (desiredDirection keys pac.direction)
            (pacmanCandidate pac (desiredDirection keys pac.direction) dt).1
            (pacmanCandidate pac (desiredDirection keys pac.direction) dt).2
        else pac) ∧
    (∀ (gs : ℚ) (pac : Pacman) (g : Ghost) (dt : ℚ) (randPt : ℚ × ℚ)
        (clydeChase exclude : Bool),
      ghostMove createDefaultMap gs (updateTunnelRows createDefaultMap) pac g dt
          randPt clydeChase exclude =
        if isValidPosition createDefaultMap gs (ghostCandidate g dt).1
            (ghostCandidate g dt).2 g.size then
          { g with
              x := (ghostCandidate g dt).1, y := (ghostCandidate g dt).2,
              gridX := ⌊(ghostCandidate g dt).1 / gs⌋,
              gridY := ⌊(ghostCandidate g dt).2 / gs⌋ }
        else
          { g with
              direction := chooseGhostDirection createDefaultMap gs g
                (getGhostTarget createDefaultMap gs pac g randPt clydeChase) exclude }) := by
  have htun : updateTunnelRows createDefaultMap = [] := by decide
  refine ⟨by decide, htun, ?_, ?_, ?_⟩
  · intro row
    rw [htun]
    rfl
  · intro gs pac keys dt
    rw [updatePacman, htun]
    simp [isTunnelRow]
  · intro gs pac g dt randPt clydeChase exclude
    rw [ghostMove, htun]
    simp [isTunnelRow]

/-- C9: the keyboard restart command has an effect only in the gameOver
phase; in any other phase the key is ignored.  From gameOver it resets
lives to 3, score to 0, level to 1 (and returns to the playing phase).
Losing a life with exactly one life left drops lives to 0 and moves the
session phase to gameOver. -/
theorem c9_restart_only_from_gameOver :
    (∀ (gs : ℚ) (game : Game), game.state.current ≠ "gameOver" →
        handleKeyR gs game = game) ∧
    (∀ (gs : ℚ) (game : Game), game.state.current = "gameOver" →
        (handleKeyR gs game).state.lives = 3 ∧
        (handleKeyR gs game).state.score = 0 ∧
        (handleKeyR gs game).state.level = 1 ∧
        (handleKeyR gs game).state.current = "playing") ∧
    (∀ s : GameState, s.lives = 1 →
        s.loseLife.lives = 0 ∧ s.loseLife.current = "gameOver") := by
  refine ⟨?_, ?_, ?_⟩
  · intro gs game h
    rw [handleKeyR, if_neg h]
  · intro gs game h
    rw [handleKeyR, if_pos h]
    simp [restart, GameState.reset]
  · intro s h
    simp [GameState.loseLife, h]

/-- Witness for C9 at concrete inputs: a playing-phase game ignores the
restart key, a gameOver-phase game restarts to 3 lives, score 0, level 1,
and a one-life state loses its last life into gameOver. -/
theorem c9_witness :
    (handleKeyR 19 { state := samplePlaying, gameMap := [[2]], tunnelRows := [],
                     pacman := samplePac, ghosts := [sampleGhost] } =
      { state := samplePlaying, gameMap := [[2]], tunnelRows := [],
        pacman := samplePac, ghosts := [sampleGhost] }) ∧
    ((handleKeyR 19 { state := { samplePlaying with current := "gameOver", lives := 0 },
                      gameMap := [[2]], tunnelRows := [],
                      pacman := samplePac, ghosts := [sampleGhost] }).state.lives = 3 ∧
      (handleKeyR 19 { state := { samplePlaying with current := "gameOver", lives := 0 },
                       gameMap := [[2]], tunnelRows := [],
                       pacman := samplePac, ghosts := [sampleGhost] }).state.score = 0 ∧
      (handleKeyR 19 { state := { samplePlaying with current := "gameOver", lives := 0 },
                       gameMap := [[2]], tunnelRows := [],
                       pacman := samplePac, ghosts := [sampleGhost] }).state.level = 1 ∧
      (handleKeyR 19 { state := { samplePlaying with current := "gameOver", lives := 0 },
                       gameMap := [[2]], tunnelRows := [],
                       pacman := samplePac, ghosts := [sampleGhost] }).state.current = "playing") ∧
    (({ samplePlaying with lives := 1 } : GameState).loseLife.lives = 0 ∧
      ({ samplePlaying with lives := 1 } : GameState).loseLife.current = "gameOver") :=
  ⟨c9_restart_only_from_gameOver.1 19 _ (by decide),
   c9_restart_only_from_gameOver.2.1 19 _ (by decide),
   c9_restart_only_from_gameOver.2.2 _ (by decide)⟩

/-- C2: when the protagonist's cell holds a power pellet (value 3), the
pellet step adds exactly 50 to the score, activates the global power state
with its full 8 second countdown, decrements the remaining-pellet count,
and frightens exactly the eligible pursuers: every ghost that is neither
waiting in the ghost house nor dead gets mode frightened, speed
0.6 × GAME_SPEED and a reversed heading, while waiting or dead ghosts are
left completely untouched. -/
theorem c2_power_pellet_effects (m : GameMap) (gs : ℚ) (st : GameState)
    (ghosts : List Ghost) (pac : Pacman)
    (h : cellAt m ⌊pac.x / gs⌋ ⌊pac.y / gs⌋ = some 3) :
    (eatPellets m gs st ghosts pac).2.1.score = st.score + 50 ∧
    (eatPellets m gs st ghosts pac).2.1.powerPelletActive = true ∧
    (eatPellets m gs st ghosts pac).2.1.powerPelletTimer = 8 ∧
    (eatPellets m gs st ghosts pac).2.1.pelletsRemaining = st.pelletsRemaining - 1 ∧
    (eatPellets m gs st ghosts pac).2.2 = ghosts.map frightenGhost ∧
    (∀ g : Ghost, g.inGhostHouse = false → g.mode ≠ "dead" →
        frightenGhost g =
          { g with
              mode := "frightened", speed := GAME_SPEED * (3/5),
              direction := (g.direction + 2) % 4 }) ∧
    (∀ g : Ghost, g.inGhostHouse = true ∨ g.mode = "dead" → frightenGhost g = g) := by
  have h2 : ¬ (cellAt m ⌊pac.x / gs⌋ ⌊pac.y / gs⌋ = some 2) := by simp [h]
  have he : eatPellets m gs st ghosts pac =
      (setCell m ⌊pac.x / gs⌋ ⌊pac.y / gs⌋ 0,
       { st.addScore 50 with
           pelletsRemaining := st.pelletsRemaining - 1,
           powerPelletActive := true, powerPelletTimer := 8 },
       ghosts.map frightenGhost) := by
    simp only [eatPellets]
    rw [if_neg h2, if_pos h]
  refine ⟨by simp [he, GameState.addScore], by simp [he], by simp [he],
    by simp [he, GameState.addScore], by simp [he], ?_, ?_⟩
  · intro g hh hm
    rw [frightenGhost, if_pos]
    exact ⟨by simp [hh], hm⟩
  · intro g hgm
    rw [frightenGhost, if_neg]
    rcases hgm with hh | hm
    · intro hc
      exact hc.1 (by simp [hh])
    · intro hc
      exact hc.2 hm

/-- Witness for C2: a one-cell map holding a power pellet, the protagonist
on that cell, one eligible ghost and one ghost waiting in the house. -/
theorem c2_witness :
    (eatPellets [[3]] 19 samplePlaying [sampleGhost]
      { samplePac with x := 19/2, y := 19/2 }).2.1.score = samplePlaying.score + 50 ∧
    (eatPellets [[3]] 19 samplePlaying [sampleGhost]
      { samplePac with x := 19/2, y := 19/2 }).2.1.powerPelletActive = true ∧
    (eatPellets [[3]] 19 samplePlaying [sampleGhost]
      { samplePac with x := 19/2, y := 19/2 }).2.1.powerPelletTimer = 8 ∧
    (eatPellets [[3]] 19 samplePlaying [sampleGhost]
      { samplePac with x := 19/2, y := 19/2 }).2.2 = [sampleGhost].map frightenGhost ∧
    frightenGhost sampleGhost =
      { sampleGhost with
          mode := "frightened", speed := GAME_SPEED * (3/5),
          direction := (sampleGhost.direction + 2) % 4 } ∧
    frightenGhost { sampleGhost with inGhostHouse := true } =
      { sampleGhost with inGhostHouse := true } := by
  have hfl : (⌊(({ samplePac with x := 19/2, y := 19/2 } : Pacman).x / 19 : ℚ)⌋ : ℤ) = 0 := by
    norm_num
  have h := c2_power_pellet_effects [[3]] 19 samplePlaying [sampleGhost]
    { samplePac with x := 19/2, y := 19/2 } (by rw [hfl]; decide)
  exact ⟨h.1, h.2.1, h.2.2.1, h.2.2.2.2.1,
    h.2.2.2.2.2.1 sampleGhost (by decide) (by decide),
    h.2.2.2.2.2.2 { sampleGhost with inGhostHouse := true } (Or.inl (by decide))⟩

/-- C7 counterexample: a pursuer in scatter mode with 6 seconds of scatter
schedule remaining is frightened by a power pellet (entry indeed leaves the
timer at 6), but when the power countdown expires the program assigns a
fresh 3 second scatter timer, so the remembered 6 seconds are discarded
rather than resumed. -/
theorem c7_counterexample :
    (frightenGhost { sampleGhost with scatterTimer := some 6 }).mode = "frightened" ∧
    (frightenGhost { sampleGhost with scatterTimer := some 6 }).scatterTimer = some 6 ∧
    ((powerPelletStep { samplePlaying with powerPelletActive := true, powerPelletTimer := 1/10 }
        [frightenGhost { sampleGhost with scatterTimer := some 6 }] (1/5)).2.headD
          sampleGhost).mode = "scatter" ∧
    ((powerPelletStep { samplePlaying with powerPelletActive := true, powerPelletTimer := 1/10 }
        [frightenGhost { sampleGhost with scatterTimer := some 6 }] (1/5)).2.headD
          sampleGhost).scatterTimer = some 3 ∧
    (some (3 : ℚ) ≠ some (6 : ℚ)) := by
  refine ⟨?_, ?_, ?_, ?_, by norm_num⟩ <;>
    norm_num +decide [frightenGhost, powerPelletStep, sampleGhost, samplePlaying, GAME_SPEED]

/-- C7 amended: entering frightened mode preserves the scatter and chase
timers, and the frightened branch of updateGhostAI does not tick them; but
on power expiry every frightened pursuer is put back into scatter mode with
a fresh 3 second scatter timer and normal (0.8 × GAME_SPEED) speed, so the
schedule restarts with a short scatter period instead of resuming where it
left off. -/
theorem c7_amended :
    (∀ g : Ghost, (frightenGhost g).scatterTimer = g.scatterTimer ∧
        (frightenGhost g).chaseTimer = g.chaseTimer) ∧
    (∀ (m : GameMap) (gs : ℚ) (pac : Pacman) (g : Ghost) (dt : ℚ)
        (randPt : ℚ × ℚ) (clydeChase exclude : Bool), g.mode = "frightened" →
        (updateGhostAI m gs pac g dt randPt clydeChase exclude).scatterTimer = g.scatterTimer ∧
        (updateGhostAI m gs pac g dt randPt clydeChase exclude).chaseTimer = g.chaseTimer ∧
        (updateGhostAI m gs pac g dt randPt clydeChase exclude).mode = "frightened") ∧
    (∀ (st : GameState) (ghosts : List Ghost) (dt : ℚ),
        st.powerPelletActive = true → st.powerPelletTimer - dt ≤ 0 →
        (powerPelletStep st ghosts dt).1.powerPelletActive = false ∧
        (powerPelletStep st ghosts dt).2 = ghosts.map fun g =>
          if g.mode = "frightened" then
            { g with
                mode := "scatter", speed := GAME_SPEED * (4/5),
                scatterTimer := some 3 }
          else g) := by
  refine ⟨?_, ?_, ?_⟩
  · intro g
    rw [frightenGhost]
    split_ifs <;> simp
  · intro m gs pac g dt randPt clydeChase exclude hm
    have hg2 : ghostScheduleStep g dt = g :=
      ghostScheduleStep_of_other g dt (by simp [hm]) (by simp [hm])
    rw [updateGhostAI, hg2]
    split_ifs <;> simp [hm]
  · intro st ghosts dt hact hexp
    rw [powerPelletStep]
    simp only [hact, if_true]
    rw [if_pos hexp]
    exact ⟨rfl, rfl⟩

/-- Witness for C7 amended at concrete inputs: a frightened pursuer keeps
its timers through entry and through the frightened AI branch, and a power
expiry step rewrites a frightened pursuer to scatter with a 3 second timer. -/
theorem c7_witness :
    ((frightenGhost sampleGhost).scatterTimer = sampleGhost.scatterTimer ∧
      (frightenGhost sampleGhost).chaseTimer = sampleGhost.chaseTimer) ∧
    ((updateGhostAI [[0]] 19 samplePac { sampleGhost with mode := "frightened" } (1/10)
        (0, 0) true true).scatterTimer = ({ sampleGhost with mode := "frightened" } : Ghost).scatterTimer ∧
      (updateGhostAI [[0]] 19 samplePac { sampleGhost with mode := "frightened" } (1/10)
        (0, 0) true true).chaseTimer = ({ sampleGhost with mode := "frightened" } : Ghost).chaseTimer ∧
      (updateGhostAI [[0]] 19 samplePac { sampleGhost with mode := "frightened" } (1/10)
        (0, 0) true true).mode = "frightened") ∧
    ((powerPelletStep { samplePlaying with powerPelletActive := true, powerPelletTimer := 1/10 }
        [{ sampleGhost with mode := "frightened" }] (1/5)).1.powerPelletActive = false ∧
      (powerPelletStep { samplePlaying with powerPelletActive := true, powerPelletTimer := 1/10 }
        [{ sampleGhost with mode := "frightened" }] (1/5)).2 =
        [{ sampleGhost with mode := "frightened" }].map fun g =>
          if g.mode = "frightened" then
            { g with
                mode := "scatter", speed := GAME_SPEED * (4/5),
                scatterTimer := some 3 }
          else g) :=
  ⟨c7_amended.1 sampleGhost,
   c7_amended.2.1 [[0]] 19 samplePac { sampleGhost with mode := "frightened" } (1/10)
     (0, 0) true true (by decide),
   c7_amended.2.2 { samplePlaying with powerPelletActive := true, powerPelletTimer := 1/10 }
     [{ sampleGhost with mode := "frightened" }] (1/5) (by decide) (by norm_num)⟩

/-- A concrete patrol-personality pursuer ("Inky") in chase mode, 10 pixels
away from the sample protagonist (well within 8 grid cells). -/
def sampleInky : Ghost :=
  { sampleGhost with x := 110, name := "Inky", personality := "patrol", mode := "chase" }

/-- C8 counterexample: with the default map and grid size 19 the patrol
pursuer within 8 grid cells of the protagonist targets (40, 511) — the
bottom-LEFT corner — while the same pursuer's own scatter-mode corner is
(492, 511), the bottom-right corner; the retreat target is not the
pursuer's own home corner. -/
theorem c8_counterexample :
    canvasW createDefaultMap 19 = 532 ∧
    canvasH createDefaultMap 19 = 551 ∧
    ¬ ((samplePac.x - sampleInky.x) ^ 2 + (samplePac.y - sampleInky.y) ^ 2 >
        (8 * (19 : ℚ)) ^ 2) ∧
    getGhostTarget createDefaultMap 19 samplePac sampleInky (0, 0) true = (40, 511) ∧
    getGhostTarget createDefaultMap 19 samplePac { sampleInky with mode := "scatter" }
      (0, 0) true = (492, 511) ∧
    ((40 : ℚ), (511 : ℚ)) ≠ ((492 : ℚ), (511 : ℚ)) := by
  have hlen : createDefaultMap.length = 29 := by decide
  have hcols : mapCols createDefaultMap = 28 := by decide
  have hW : canvasW createDefaultMap 19 = 532 := by
    rw [canvasW, hcols]; norm_num
  have hH : canvasH createDefaultMap 19 = 551 := by
    rw [canvasH, hlen]; norm_num
  refine ⟨hW, hH, by norm_num [samplePac, sampleInky, sampleGhost], ?_, ?_, by norm_num⟩
  · rw [getGhostTarget]
    norm_num +decide [samplePac, sampleInky, sampleGhost, hH]
  · rw [getGhostTarget]
    norm_num +decide [samplePac, sampleInky, sampleGhost, hW, hH]

/-- C8 amended: for a patrol-personality pursuer in chase mode the target is
the protagonist's position when the distance exceeds 8 grid cells and
otherwise the fixed point (40, CANVAS_HEIGHT − 40) — the bottom-left
corner, which is the erratic pursuer's scatter corner, not this pursuer's
own scatter corner (the patrol pursuer "Inky" scatters to
(CANVAS_WIDTH − 40, CANVAS_HEIGHT − 40)). -/
theorem c8_amended (m : GameMap) (gs : ℚ) (pac : Pacman) (g : Ghost)
    (randPt : ℚ × ℚ) (clydeChase : Bool)
    (hp : g.personality = "patrol") (hm : g.mode = "chase") :
    getGhostTarget m gs pac g randPt clydeChase =
      (if (pac.x - g.x) ^ 2 + (pac.y - g.y) ^ 2 > (8 * gs) ^ 2 then (pac.x, pac.y)
       else (40, canvasH m gs - 40)) ∧
    (g.name = "Inky" →
      getGhostTarget m gs pac { g with mode := "scatter" } randPt clydeChase =
        (canvasW m gs - 40, canvasH m gs - 40)) := by
  constructor
  · rw [getGhostTarget]
    simp +decide [hm, hp]
  · intro hn
    rw [getGhostTarget]
    simp +decide [hn]

/-- Witness for C8 amended at the concrete patrol pursuer: both the
chase-mode characterization and the scatter-corner equation hold on the
default map. -/
theorem c8_witness :
    getGhostTarget createDefaultMap 19 samplePac sampleInky (0, 0) true =
      (if (samplePac.x - sampleInky.x) ^ 2 + (samplePac.y - sampleInky.y) ^ 2 >
          (8 * (19 : ℚ)) ^ 2 then (samplePac.x, samplePac.y)
       else (40, canvasH createDefaultMap 19 - 40)) ∧
    getGhostTarget createDefaultMap 19 samplePac { sampleInky with mode := "scatter" }
      (0, 0) true =
      (canvasW createDefaultMap 19 - 40, canvasH createDefaultMap 19 - 40) :=
  ⟨(c8_amended createDefaultMap 19 samplePac sampleInky (0, 0) true
      (by decide) (by decide)).1,
   (c8_amended createDefaultMap 19 samplePac sampleInky (0, 0) true
      (by decide) (by decide)).2 (by decide)⟩

/-- C1 counterexample: the protagonist overlaps a scatter-mode pursuer while
the power state is active; the claim demands that the pursuer's mode become
Dead, but after the contact resolution the pursuer's mode is still scatter
(the program only awards 200 points and teleports the pursuer; it never
assigns the dead mode). -/
theorem c1_counterexample :
    ((samplePac.x - sampleGhost.x) ^ 2 + (samplePac.y - sampleGhost.y) ^ 2 <
      (samplePac.size + sampleGhost.size) ^ 2) ∧
    ({ samplePlaying with powerPelletActive := true } : GameState).powerPelletActive = true ∧
    sampleGhost.mode ≠ "dead" ∧
    ((collideGhost 19 { samplePlaying with powerPelletActive := true } samplePac
        [sampleGhost] 0).2.2.headD sampleGhost).mode = "scatter" ∧
    ((collideGhost 19 { samplePlaying with powerPelletActive := true } samplePac
        [sampleGhost] 0).1.score =
      ({ samplePlaying with powerPelletActive := true } : GameState).score + 200) ∧
    (("scatter" : String) ≠ "dead") := by
  refine ⟨by norm_num [samplePac, sampleGhost], rfl, by decide, ?_, ?_, by decide⟩ <;>
    norm_num +decide [collideGhost, samplePac, sampleGhost, samplePlaying,
      GameState.addScore]

/-- C1 amended: on protagonist–pursuer contact (center distance below the
summed radii), if the power state is active the score increases by exactly
200 and that pursuer is teleported to the fixed cell (5, 5) with its mode
(and speed) unchanged — it is never marked Dead; otherwise lives decrease
by 1 (entering gameOver when they reach 0), the score is unchanged, and
all positions are reset to the fixed reset layout of resetPositions. -/
theorem c1_amended (gs : ℚ) (st : GameState) (pac : Pacman) (ghosts : List Ghost)
    (i : ℕ) (g : Ghost) (hg : ghosts.get? i = some g)
    (hcol : (pac.x - g.x) ^ 2 + (pac.y - g.y) ^ 2 < (pac.size + g.size) ^ 2) :
    (st.powerPelletActive = true →
      collideGhost gs st pac ghosts i =
        ({ st with score := st.score + 200 }, pac,
          ghosts.set i { g with x := gs * 5, y := gs * 5 }) ∧
      ({ g with x := gs * 5, y := gs * 5 } : Ghost).mode = g.mode ∧
      ({ g with x := gs * 5, y := gs * 5 } : Ghost).speed = g.speed) ∧
    (st.powerPelletActive = false →
      collideGhost gs st pac ghosts i =
        (st.loseLife, (resetPositions gs pac ghosts).1, (resetPositions gs pac ghosts).2) ∧
      st.loseLife.lives = st.lives - 1 ∧
      st.loseLife.score = st.score ∧
      (resetPositions gs pac ghosts).1.x = gs * (3/2) ∧
      (resetPositions gs pac ghosts).1.y = gs * (3/2) ∧
      (st.lives - 1 ≤ 0 → st.loseLife.current = "gameOver")) := by
  constructor
  · intro hpow
    refine ⟨?_, rfl, rfl⟩
    simp only [collideGhost, hg]
    rw [if_pos hcol]
    simp [hpow, GameState.addScore]
  · intro hpow
    refine ⟨?_, rfl, rfl, rfl, rfl, ?_⟩
    · simp only [collideGhost, hg]
      rw [if_pos hcol]
      simp [hpow]
    · intro hl
      simp only [GameState.loseLife]
      rw [if_pos hl]

/-- Witness for C1 amended: the overlapping protagonist and pursuer from the
counterexample, once with the power state active and once without. -/
theorem c1_witness :
    (collideGhost 19 { samplePlaying with powerPelletActive := true } samplePac
        [sampleGhost] 0 =
      ({ ({ samplePlaying with powerPelletActive := true } : GameState) with
           score := ({ samplePlaying with powerPelletActive := true } : GameState).score + 200 },
        samplePac, [sampleGhost].set 0 { sampleGhost with x := 19 * 5, y := 19 * 5 })) ∧
    (collideGhost 19 samplePlaying samplePac [sampleGhost] 0 =
      (samplePlaying.loseLife, (resetPositions 19 samplePac [sampleGhost]).1,
        (resetPositions 19 samplePac [sampleGhost]).2)) := by
  have hcol : (samplePac.x - sampleGhost.x) ^ 2 + (samplePac.y - sampleGhost.y) ^ 2 <
      (samplePac.size + sampleGhost.size) ^ 2 := by norm_num [samplePac, sampleGhost]
  exact ⟨((c1_amended 19 { samplePlaying with powerPelletActive := true } samplePac
      [sampleGhost] 0 sampleGhost rfl hcol).1 rfl).1,
    ((c1_amended 19 samplePlaying samplePac [sampleGhost] 0 sampleGhost rfl hcol).2 rfl).1⟩

/-- C4: a requested step whose candidate position is invalid (wall or out of
canvas bounds) and which is not a tunnel wrap leaves the agent's position
unchanged; for a pursuer, the same rejected step additionally re-selects
the heading through chooseGhostDirection within the same tick. -/
theorem c4_rejected_step :
    (∀ (m : GameMap) (gs : ℚ) (tun : List ℕ) (pac : Pacman) (keys : Keys) (dt : ℚ),
      ¬ (isTunnelRow tun ⌊pac.y / gs⌋ ∧
          (dirVec (desiredDirection keys pac.direction)).1 < 0 ∧ pac.x - pac.size ≤ 0) →
      ¬ (isTunnelRow tun ⌊pac.y / gs⌋ ∧
          (dirVec (desiredDirection keys pac.direction)).1 > 0 ∧
          pac.x + pac.size ≥ (mapCols m : ℚ) * gs) →
      isValidPosition m gs (pacmanCandidate pac (desiredDirection keys pac.direction) dt).1
        (pacmanCandidate pac (desiredDirection keys pac.direction) dt).2 pac.size = false →
      updatePacman m gs tun pac keys dt = pac) ∧
    (∀ (m : GameMap) (gs : ℚ) (tun : List ℕ) (pac : Pacman) (g : Ghost) (dt : ℚ)
        (randPt : ℚ × ℚ) (clydeChase exclude : Bool),
      ¬ (isTunnelRow tun ⌊g.y / gs⌋ ∧ (ghostCandidate g dt).1 < -gs ∧ g.direction = 2) →
      ¬ (isTunnelRow tun ⌊g.y / gs⌋ ∧ (ghostCandidate g dt).1 > (mapCols m : ℚ) * gs + gs ∧
          g.direction = 0) →
      isValidPosition m gs (ghostCandidate g dt).1 (ghostCandidate g dt).2 g.size = false →
      ghostMove m gs tun pac g dt randPt clydeChase exclude =
        { g with
            direction := chooseGhostDirection m gs g
              (getGhostTarget m gs pac g randPt clydeChase) exclude }) := by
  constructor
  · intro m gs tun pac keys dt h1 h2 hv
    rw [updatePacman, if_neg h1, if_neg h2]
    simp [hv]
  · intro m gs tun pac g dt randPt clydeChase exclude h1 h2 hv
    rw [ghostMove, if_neg h1, if_neg h2]
    simp [hv]

/-- Witness for C4: a two-cell map with a wall on the right; both agents sit
on the open cell and request a rightward step that lands on the wall cell:
the protagonist stays put and the pursuer stays put with a re-selected
heading. -/
theorem c4_witness :
    updatePacman [[0, 1]] 19 [] { samplePac with x := 19/2, y := 19/2, direction := 0 }
      { up := false, down := false, left := false, right := false } (1/10) =
      { samplePac with x := 19/2, y := 19/2, direction := 0 } ∧
    ghostMove [[0, 1]] 19 [] samplePac
      { sampleGhost with x := 19/2, y := 19/2, direction := 0 } (1/10) (0, 0) true true =
      { ({ sampleGhost with x := 19/2, y := 19/2, direction := 0 } : Ghost) with
          direction := chooseGhostDirection [[0, 1]] 19
            { sampleGhost with x := 19/2, y := 19/2, direction := 0 }
            (getGhostTarget [[0, 1]] 19 samplePac
              { sampleGhost with x := 19/2, y := 19/2, direction := 0 } (0, 0) true) true } := by
  have hvp : isValidPosition [[0, 1]] 19
      (pacmanCandidate { samplePac with x := 19/2, y := 19/2, direction := 0 }
        (desiredDirection { up := false, down := false, left := false, right := false }
          ({ samplePac with x := 19/2, y := 19/2, direction := 0 } : Pacman).direction) (1/10)).1
      (pacmanCandidate { samplePac with x := 19/2, y := 19/2, direction := 0 }
        (desiredDirection { up := false, down := false, left := false, right := false }
          ({ samplePac with x := 19/2, y := 19/2, direction := 0 } : Pacman).direction) (1/10)).2
      ({ samplePac with x := 19/2, y := 19/2, direction := 0 } : Pacman).size = false := by
    norm_num [isValidPosition, pacmanCandidate, desiredDirection, dirVec, cellAt,
      canvasW, canvasH, mapCols, samplePac]
  have hvg : isValidPosition [[0, 1]] 19
      (ghostCandidate { sampleGhost with x := 19/2, y := 19/2, direction := 0 } (1/10)).1
      (ghostCandidate { sampleGhost with x := 19/2, y := 19/2, direction := 0 } (1/10)).2
      ({ sampleGhost with x := 19/2, y := 19/2, direction := 0 } : Ghost).size = false := by
    norm_num [isValidPosition, ghostCandidate, dirVec, cellAt,
      canvasW, canvasH, mapCols, sampleGhost]
  exact ⟨c4_rejected_step.1 [[0, 1]] 19 [] _ _ (1/10)
      (by simp [isTunnelRow]) (by simp [isTunnelRow]) hvp,
    c4_rejected_step.2 [[0, 1]] 19 [] samplePac _ (1/10) (0, 0) true true
      (by simp [isTunnelRow]) (by simp [isTunnelRow]) hvg⟩

/-- C6 counterexample: on a map whose middle row is a tunnel row, a pursuer
traveling left whose candidate x is −6 — past the left edge but not yet a
full cell beyond it — is NOT wrapped: the wrap guard requires newX < −gs,
so the step falls through to the validity check, is rejected, and the
pursuer's position stays (10, 28.5) instead of appearing at the opposite
edge at the row-center y as the claim demands. -/
theorem c6_counterexample :
    updateTunnelRows [[1, 1, 1], [0, 0, 0], [1, 1, 1]] = [1] ∧
    isTunnelRow [1] ⌊(({ sampleGhost with x := 10, y := 57/2, direction := 2 } : Ghost).y / 19 : ℚ)⌋ = true ∧
    ({ sampleGhost with x := 10, y := 57/2, direction := 2 } : Ghost).direction = 2 ∧
    (ghostCandidate { sampleGhost with x := 10, y := 57/2, direction := 2 } (1/10)).1 = -6 ∧
    ((-6 : ℚ) < 0) ∧
    (ghostMove [[1, 1, 1], [0, 0, 0], [1, 1, 1]] 19 [1] samplePac
      { sampleGhost with x := 10, y := 57/2, direction := 2 } (1/10) (0, 0) true true).x = 10 ∧
    (ghostMove [[1, 1, 1], [0, 0, 0], [1, 1, 1]] 19 [1] samplePac
      { sampleGhost with x := 10, y := 57/2, direction := 2 } (1/10) (0, 0) true true).y = 57/2 := by
  have hrow : (⌊((57 : ℚ)/2) / 19⌋ : ℤ) = 1 := by norm_num
  have hcand : (ghostCandidate { sampleGhost with x := 10, y := 57/2, direction := 2 } (1/10)).1 = -6 := by
    norm_num [ghostCandidate, dirVec, sampleGhost]
  have h1 : ¬ (isTunnelRow [1] ⌊(((57 : ℚ)/2) / 19 : ℚ)⌋ ∧
      (ghostCandidate { sampleGhost with x := 10, y := 57/2, direction := 2 } (1/10)).1 < -(19 : ℚ) ∧
      ({ sampleGhost with x := 10, y := 57/2, direction := 2 } : Ghost).direction = 2) := by
    rw [hcand]
    norm_num
  have h2 : ¬ (isTunnelRow [1] ⌊(((57 : ℚ)/2) / 19 : ℚ)⌋ ∧
      (ghostCandidate { sampleGhost with x := 10, y := 57/2, direction := 2 } (1/10)).1 >
        (mapCols [[1, 1, 1], [0, 0, 0], [1, 1, 1]] : ℚ) * 19 + 19 ∧
      ({ sampleGhost with x := 10, y := 57/2, direction := 2 } : Ghost).direction = 0) := by
    rw [hcand]
    norm_num [mapCols]
  have hv : isValidPosition [[1, 1, 1], [0, 0, 0], [1, 1, 1]] 19
      (ghostCandidate { sampleGhost with x := 10, y := 57/2, direction := 2 } (1/10)).1
      (ghostCandidate { sampleGhost with x := 10, y := 57/2, direction := 2 } (1/10)).2
      ({ sampleGhost with x := 10, y := 57/2, direction := 2 } : Ghost).size = false := by
    rw [isValidPosition, if_pos]
    rw [hcand]
    norm_num [ghostCandidate, dirVec, sampleGhost]
  have hmove : ghostMove [[1, 1, 1], [0, 0, 0], [1, 1, 1]] 19 [1] samplePac
      { sampleGhost with x := 10, y := 57/2, direction := 2 } (1/10) (0, 0) true true =
      { ({ sampleGhost with x := 10, y := 57/2, direction := 2 } : Ghost) with
          direction := chooseGhostDirection [[1, 1, 1], [0, 0, 0], [1, 1, 1]] 19
            { sampleGhost with x := 10, y := 57/2, direction := 2 }
            (getGhostTarget [[1, 1, 1], [0, 0, 0], [1, 1, 1]] 19 samplePac
              { sampleGhost with x := 10, y := 57/2, direction := 2 } (0, 0) true) true } := by
    have hnv : ¬ (isValidPosition [[1, 1, 1], [0, 0, 0], [1, 1, 1]] 19
        (ghostCandidate { sampleGhost with x := 10, y := 57/2, direction := 2 } (1/10)).1
        (ghostCandidate { sampleGhost with x := 10, y := 57/2, direction := 2 } (1/10)).2
        ({ sampleGhost with x := 10, y := 57/2, direction := 2 } : Ghost).size = true) := by
      rw [hv]
      exact Bool.false_ne_true
    rw [ghostMove, if_neg h1, if_neg h2, if_neg hnv]
  refine ⟨by decide, ?_, rfl, hcand, by norm_num, ?_, ?_⟩
  · rw [show (({ sampleGhost with x := 10, y := 57/2, direction := 2 } : Ghost).y / 19 : ℚ) =
      ((57 : ℚ)/2) / 19 from rfl, hrow]
    decide
  · rw [hmove]
  · rw [hmove]

/-- C6 amended: tunnel wrapping takes priority over the validity check but
differs per agent.  Protagonist: when its current row is a tunnel row, its
desired direction points out of the board, and its current position
(offset by its radius) already touches the edge, the step teleports it to
the opposite edge cell-center at the row-center y-coordinate,
unconditionally.  Pursuer: a wrap fires only when the candidate x is more
than one full cell beyond the edge (newX < −gs, resp. newX > cols·gs + gs)
while heading left (resp. right); it sets x to one cell beyond the
opposite edge and leaves y (and the heading) unchanged — a candidate
merely past the edge is handled by the ordinary validity check instead. -/
theorem c6_amended :
    (∀ (m : GameMap) (gs : ℚ) (tun : List ℕ) (pac : Pacman) (keys : Keys) (dt : ℚ),
      isTunnelRow tun ⌊pac.y / gs⌋ →
      (dirVec (desiredDirection keys pac.direction)).1 < 0 →
      pac.x - pac.size ≤ 0 →
      updatePacman m gs tun pac keys dt =
        { pac with
            direction := desiredDirection keys pac.direction,
            x := ((mapCols m : ℚ) - 1 + 1/2) * gs,
            y := ((⌊pac.y / gs⌋ : ℤ) + 1/2 : ℚ) * gs,
            gridX := ⌊(((mapCols m : ℚ) - 1 + 1/2) * gs) / gs⌋,
            gridY := ⌊pac.y / gs⌋ }) ∧
    (∀ (m : GameMap) (gs : ℚ) (tun : List ℕ) (pac : Pacman) (keys : Keys) (dt : ℚ),
      isTunnelRow tun ⌊pac.y / gs⌋ →
      ¬ ((dirVec (desiredDirection keys pac.direction)).1 < 0 ∧ pac.x - pac.size ≤ 0) →
      (dirVec (desiredDirection keys pac.direction)).1 > 0 →
      pac.x + pac.size ≥ (mapCols m : ℚ) * gs →
      updatePacman m gs tun pac keys dt =
        { pac with
            direction := desiredDirection keys pac.direction,
            x := (1/2 : ℚ) * gs,
            y := ((⌊pac.y / gs⌋ : ℤ) + 1/2 : ℚ) * gs,
            gridX := ⌊((1/2 : ℚ) * gs) / gs⌋,
            gridY := ⌊pac.y / gs⌋ }) ∧
    (∀ (m : GameMap) (gs : ℚ) (tun : List ℕ) (pac : Pacman) (g : Ghost) (dt : ℚ)
        (randPt : ℚ × ℚ) (clydeChase exclude : Bool),
      isTunnelRow tun ⌊g.y / gs⌋ →
      (ghostCandidate g dt).1 < -gs →
      g.direction = 2 →
      ghostMove m gs tun pac g dt randPt clydeChase exclude =
        { g with x := (mapCols m : ℚ) * gs + gs }) ∧
    (∀ (m : GameMap) (gs : ℚ) (tun : List ℕ) (pac : Pacman) (g : Ghost) (dt : ℚ)
        (randPt : ℚ × ℚ) (clydeChase exclude : Bool),
      isTunnelRow tun ⌊g.y / gs⌋ →
      ¬ ((ghostCandidate g dt).1 < -gs ∧ g.direction = 2) →
      (ghostCandidate g dt).1 > (mapCols m : ℚ) * gs + gs →
      g.direction = 0 →
      ghostMove m gs tun pac g dt randPt clydeChase exclude =
        { g with x := -gs }) := by
  refine ⟨?_, ?_, ?_, ?_⟩
  · intro m gs tun pac keys dt h1 h2 h3
    rw [updatePacman, if_pos ⟨h1, h2, h3⟩]
  · intro m gs tun pac keys dt h1 hn h2 h3
    rw [updatePacman, if_neg (fun hc => hn ⟨hc.2.1, hc.2.2⟩), if_pos ⟨h1, h2, h3⟩]
  · intro m gs tun pac g dt randPt clydeChase exclude h1 h2 h3
    rw [ghostMove, if_pos ⟨h1, h2, h3⟩]
  · intro m gs tun pac g dt randPt clydeChase exclude h1 hn h2 h3
    rw [ghostMove, if_neg (fun hc => hn ⟨hc.2.1, hc.2.2⟩), if_pos ⟨h1, h2, h3⟩]

/-- Witness for C6 amended: on a 2-column map with an open top row, a
left-heading protagonist touching the left edge wraps to the right edge
cell-center on the row-center line; a right-heading one touching the right
edge wraps to the left cell-center; a pursuer whose candidate is a full
cell beyond an edge is teleported one cell beyond the opposite edge. -/
theorem c6_witness :
    updatePacman [[0, 0], [1, 1]] 19 [0]
      { samplePac with x := 5, y := 19/2, direction := 2 }
      { up := false, down := false, left := true, right := false } (1/10) =
      { ({ samplePac with x := 5, y := 19/2, direction := 2 } : Pacman) with
          direction := 2, x := ((2 : ℚ) - 1 + 1/2) * 19,
          y := ((0 : ℤ) + 1/2 : ℚ) * 19,
          gridX := ⌊((((2 : ℕ) : ℚ) - 1 + 1/2) * 19) / (19 : ℚ)⌋, gridY := 0 } ∧
    updatePacman [[0, 0], [1, 1]] 19 [0]
      { samplePac with x := 33, y := 19/2, direction := 0 }
      { up := false, down := false, left := false, right := true } (1/10) =
      { ({ samplePac with x := 33, y := 19/2, direction := 0 } : Pacman) with
          direction := 0, x := (1/2 : ℚ) * 19,
          y := ((0 : ℤ) + 1/2 : ℚ) * 19,
          gridX := ⌊((1/2 : ℚ) * 19) / (19 : ℚ)⌋, gridY := 0 } ∧
    ghostMove [[0, 0], [1, 1]] 19 [0] samplePac
      { sampleGhost with x := 1, y := 19/2, direction := 2 } 1 (0, 0) true true =
      { ({ sampleGhost with x := 1, y := 19/2, direction := 2 } : Ghost) with
          x := ((2 : ℕ) : ℚ) * 19 + 19 } ∧
    ghostMove [[0, 0], [1, 1]] 19 [0] samplePac
      { sampleGhost with x := 37, y := 19/2, direction := 0 } 1 (0, 0) true true =
      { ({ sampleGhost with x := 37, y := 19/2, direction := 0 } : Ghost) with
          x := -(19 : ℚ) } := by
  have hrow : (⌊((19 : ℚ)/2) / 19⌋ : ℤ) = 0 := by norm_num
  have htun : isTunnelRow [0] ⌊((19 : ℚ)/2) / 19⌋ = true := by rw [hrow]; decide
  refine ⟨?_, ?_, ?_, ?_⟩
  · have h := c6_amended.1 [[0, 0], [1, 1]] 19 [0]
      { samplePac with x := 5, y := 19/2, direction := 2 }
      { up := false, down := false, left := true, right := false } (1/10)
      htun (by norm_num [desiredDirection, dirVec]) (by norm_num [samplePac])
    rw [h]
    norm_num [desiredDirection, mapCols, hrow]
  · have h := c6_amended.2.1 [[0, 0], [1, 1]] 19 [0]
      { samplePac with x := 33, y := 19/2, direction := 0 }
      { up := false, down := false, left := false, right := true } (1/10)
      htun (by norm_num [desiredDirection, dirVec]) (by norm_num [desiredDirection, dirVec])
      (by norm_num [samplePac, mapCols])
    rw [h]
    norm_num [desiredDirection, mapCols, hrow]
  · have h := c6_amended.2.2.1 [[0, 0], [1, 1]] 19 [0] samplePac
      { sampleGhost with x := 1, y := 19/2, direction := 2 } 1 (0, 0) true true
      htun (by norm_num [ghostCandidate, dirVec, sampleGhost]) rfl
    rw [h]
    norm_num [mapCols]
  · have h := c6_amended.2.2.2 [[0, 0], [1, 1]] 19 [0] samplePac
      { sampleGhost with x := 37, y := 19/2, direction := 0 } 1 (0, 0) true true
      htun (by norm_num [ghostCandidate, dirVec, sampleGhost])
      (by norm_num [ghostCandidate, dirVec, sampleGhost, mapCols]) rfl
    rw [h]

/-
  Counting lemmas supporting the pellet-monotonicity claim.
-/

/-- Reading within bounds through get? agrees with getD. -/
theorem get?_eq_some_getD {α : Type} (l : List α) (n : ℕ) (d : α)
    (h : n < l.length) : l.get? n = some (l.getD n d) := by
  rw [List.getD_eq_getElem?_getD]
  cases hq : l.get? n with
  | none => rw [List.get?_eq_none] at hq; omega
  | some a =>
    simp only [List.get?_eq_getElem?] at hq
    simp [hq]

/-- Setting a pellet cell of a row to empty lowers the row's pellet count by
exactly one. -/
theorem countP_set_zero {l : List ℕ} {i : ℕ} {v : ℕ}
    (h : l.get? i = some v) (hv : (v == 2 || v == 3) = true) :
    (l.set i 0).countP (fun c => c == 2 || c == 3) + 1 =
      l.countP (fun c => c == 2 || c == 3) := by
  induction l generalizing i with
  | nil => simp at h
  | cons a t ih =>
    cases i with
    | zero =>
      have ha : a = v := by simpa using h
      subst ha
      simp [List.set, List.countP_cons, hv]
    | succ n =>
      have h2 : t.get? n = some v := by simpa using h
      have := ih h2
      simp only [List.set, List.countP_cons]
      omega

/-- Replacing one row of the grid by a row holding one pellet fewer lowers
the grid's pellet count by exactly one. -/
theorem countPellets_set_row {m : GameMap} {j : ℕ} {r r' : List ℕ}
    (h : m.get? j = some r)
    (hr : r'.countP (fun c => c == 2 || c == 3) + 1 =
      r.countP (fun c => c == 2 || c == 3)) :
    countPellets (m.set j r') + 1 = countPellets m := by
  induction m generalizing j with
  | nil => simp at h
  | cons a t ih =>
    cases j with
    | zero =>
      have ha : a = r := by simpa using h
      subst ha
      simp only [List.set, countPellets, List.map_cons, List.sum_cons]
      omega
    | succ n =>
      have h2 : t.get? n = some r := by simpa using h
      have := ih h2
      simp only [List.set, countPellets, List.map_cons, List.sum_cons] at *
      omega

/-- Unpacking a successful cellAt read into its bound and value facts. -/
theorem cellAt_eq_some_unpack {m : GameMap} {gx gy : ℤ} {v : ℕ}
    (h : cellAt m gx gy = some v) :
    0 ≤ gy ∧ gy.toNat < m.length ∧ 0 ≤ gx ∧
      gx.toNat < (m.getD gy.toNat []).length ∧
      (m.getD gy.toNat []).getD gx.toNat 0 = v := by
  rw [cellAt] at h
  split_ifs at h with hb
  · obtain ⟨h1, h2, h3, h4⟩ := hb
    refine ⟨h1, ?_, h3, ?_, by injection h⟩ <;> omega

/-- Setting a pellet cell to empty lowers countPellets by exactly one. -/
theorem countPellets_setCell {m : GameMap} {gx gy : ℤ} {v : ℕ}
    (h : cellAt m gx gy = some v) (hv : (v == 2 || v == 3) = true) :
    countPellets (setCell m gx gy 0) + 1 = countPellets m := by
  obtain ⟨_, hy, _, hx, hgd⟩ := cellAt_eq_some_unpack h
  have hrow : m.get? gy.toNat = some (m.getD gy.toNat []) :=
    get?_eq_some_getD m gy.toNat [] hy
  have hcell : (m.getD gy.toNat []).get? gx.toNat = some v := by
    rw [get?_eq_some_getD _ gx.toNat 0 hx, hgd]
  exact countPellets_set_row hrow (countP_set_zero hcell hv)

/-- After setCell the same cell reads back the written value. -/
theorem cellAt_setCell_self {m : GameMap} {gx gy : ℤ} {v w : ℕ}
    (h : cellAt m gx gy = some w) :
    cellAt (setCell m gx gy v) gx gy = some v := by
  obtain ⟨hy0, hy, hx0, hx, _⟩ := cellAt_eq_some_unpack h
  have hlen : (setCell m gx gy v).length = m.length := by
    rw [setCell]; simp
  have hrow : (setCell m gx gy v).get? gy.toNat =
      some ((m.getD gy.toNat []).set gx.toNat v) := by
    rw [setCell]
    exact List.get?_set_eq_of_lt _ hy
  have hrowD : (setCell m gx gy v).getD gy.toNat [] =
      (m.getD gy.toNat []).set gx.toNat v := by
    rw [List.getD_eq_getElem?_getD, ← List.get?_eq_getElem?, hrow]
    rfl
  have hcellD : ((m.getD gy.toNat []).set gx.toNat v).getD gx.toNat 0 = v := by
    rw [List.getD_eq_getElem?_getD, ← List.get?_eq_getElem?,
      List.get?_set_eq_of_lt _ hx]
    rfl
  rw [cellAt, if_pos, hrowD, hcellD]
  refine ⟨hy0, ?_, hx0, ?_⟩
  · rw [hlen]; omega
  · rw [hrowD]; simp only [List.length_set]; omega

/-- C3: per tick the remaining-pellet count decreases by exactly 1 when and
only when the protagonist's cell holds a pellet or power pellet (the cell
then becomes empty and the score grows by 10 resp. 50); assuming the
program invariant that the counter equals the number of pellet cells, the
counter still equals it afterwards and never becomes negative; and the
level-advance step fires exactly when the counter reaches 0, incrementing
the level, rebuilding the default grid, resetting positions, and
preserving score and lives. -/
theorem c3_pellet_count_monotone (m : GameMap) (gs : ℚ) (st : GameState)
    (ghosts : List Ghost) (pac : Pacman) (game : Game)
    (hinv : st.pelletsRemaining = (countPellets m : ℤ))
    (hgame : game.state = (eatPellets m gs st ghosts pac).2.1) :
    (((eatPellets m gs st ghosts pac).2.1.pelletsRemaining = st.pelletsRemaining - 1) ↔
      (cellAt m ⌊pac.x / gs⌋ ⌊pac.y / gs⌋ = some 2 ∨
        cellAt m ⌊pac.x / gs⌋ ⌊pac.y / gs⌋ = some 3)) ∧
    (cellAt m ⌊pac.x / gs⌋ ⌊pac.y / gs⌋ = some 2 →
      (eatPellets m gs st ghosts pac).2.1.score = st.score + 10 ∧
      cellAt (eatPellets m gs st ghosts pac).1 ⌊pac.x / gs⌋ ⌊pac.y / gs⌋ = some 0) ∧
    (cellAt m ⌊pac.x / gs⌋ ⌊pac.y / gs⌋ = some 3 →
      (eatPellets m gs st ghosts pac).2.1.score = st.score + 50 ∧
      cellAt (eatPellets m gs st ghosts pac).1 ⌊pac.x / gs⌋ ⌊pac.y / gs⌋ = some 0) ∧
    ((eatPellets m gs st ghosts pac).2.1.pelletsRemaining =
      (countPellets (eatPellets m gs st ghosts pac).1 : ℤ)) ∧
    (0 ≤ (eatPellets m gs st ghosts pac).2.1.pelletsRemaining) ∧
    (game.state.pelletsRemaining = 0 → winCheck gs game = nextLevelGame gs game) ∧
    (game.state.pelletsRemaining ≠ 0 → winCheck gs game = game) ∧
    ((nextLevelGame gs game).state.level = game.state.level + 1 ∧
      (nextLevelGame gs game).state.score = game.state.score ∧
      (nextLevelGame gs game).state.lives = game.state.lives ∧
      (nextLevelGame gs game).gameMap = createDefaultMap ∧
      (nextLevelGame gs game).tunnelRows = updateTunnelRows createDefaultMap ∧
      (nextLevelGame gs game).state.pelletsRemaining = (countPellets createDefaultMap : ℤ) ∧
      (nextLevelGame gs game).pacman = (resetPositions gs game.pacman game.ghosts).1 ∧
      (nextLevelGame gs game).ghosts = (resetPositions gs game.pacman game.ghosts).2) := by
  have hinv2 : (eatPellets m gs st ghosts pac).2.1.pelletsRemaining =
      (countPellets (eatPellets m gs st ghosts pac).1 : ℤ) := by
    by_cases h2 : cellAt m ⌊pac.x / gs⌋ ⌊pac.y / gs⌋ = some 2
    · have he : eatPellets m gs st ghosts pac =
          (setCell m ⌊pac.x / gs⌋ ⌊pac.y / gs⌋ 0,
           { st.addScore 10 with pelletsRemaining := st.pelletsRemaining - 1 },
           ghosts) := by
        simp only [eatPellets]
        rw [if_pos h2]
      rw [he]
      have hc := countPellets_setCell h2 (v := 2) rfl
      simp only [GameState.addScore]
      rw [hinv]
      omega
    · by_cases h3 : cellAt m ⌊pac.x / gs⌋ ⌊pac.y / gs⌋ = some 3
      · have he : eatPellets m gs st ghosts pac =
            (setCell m ⌊pac.x / gs⌋ ⌊pac.y / gs⌋ 0,
             { st.addScore 50 with
                 pelletsRemaining := st.pelletsRemaining - 1,
                 powerPelletActive := true, powerPelletTimer := 8 },
             ghosts.map frightenGhost) := by
          simp only [eatPellets]
          rw [if_neg h2, if_pos h3]
        rw [he]
        have hc := countPellets_setCell h3 (v := 3) rfl
        simp only [GameState.addScore]
        rw [hinv]
        omega
      · have he : eatPellets m gs st ghosts pac = (m, st, ghosts) := by
          simp only [eatPellets]
          rw [if_neg h2, if_neg h3]
        rw [he, hinv]
  have hnn : 0 ≤ (eatPellets m gs st ghosts pac).2.1.pelletsRemaining := by
    rw [hinv2]
    exact Int.natCast_nonneg _
  refine ⟨?_, ?_, ?_, hinv2, hnn, ?_, ?_, ?_⟩
  · by_cases h2 : cellAt m ⌊pac.x / gs⌋ ⌊pac.y / gs⌋ = some 2
    · have he : (eatPellets m gs st ghosts pac).2.1.pelletsRemaining =
          st.pelletsRemaining - 1 := by
        simp only [eatPellets]
        rw [if_pos h2]
      simp [he, h2]
    · by_cases h3 : cellAt m ⌊pac.x / gs⌋ ⌊pac.y / gs⌋ = some 3
      · have he : (eatPellets m gs st ghosts pac).2.1.pelletsRemaining =
            st.pelletsRemaining - 1 := by
          simp only [eatPellets]
          rw [if_neg h2, if_pos h3]
        simp [he, h3]
      · have he : (eatPellets m gs st ghosts pac).2.1.pelletsRemaining =
            st.pelletsRemaining := by
          simp only [eatPellets]
          rw [if_neg h2, if_neg h3]
        rw [he]
        constructor
        · intro habs
          exact absurd habs (by omega)
        · rintro (h | h)
          · exact absurd h h2
          · exact absurd h h3
  · intro h2
    have he : eatPellets m gs st ghosts pac =
        (setCell m ⌊pac.x / gs⌋ ⌊pac.y / gs⌋ 0,
         { st.addScore 10 with pelletsRemaining := st.pelletsRemaining - 1 },
         ghosts) := by
      simp only [eatPellets]
      rw [if_pos h2]
    rw [he]
    exact ⟨by simp [GameState.addScore], cellAt_setCell_self h2⟩
  · intro h3
    have h2 : ¬ (cellAt m ⌊pac.x / gs⌋ ⌊pac.y / gs⌋ = some 2) := by simp [h3]
    have he : eatPellets m gs st ghosts pac =
        (setCell m ⌊pac.x / gs⌋ ⌊pac.y / gs⌋ 0,
         { st.addScore 50 with
             pelletsRemaining := st.pelletsRemaining - 1,
             powerPelletActive := true, powerPelletTimer := 8 },
         ghosts.map frightenGhost) := by
      simp only [eatPellets]
      rw [if_neg h2, if_pos h3]
    rw [he]
    exact ⟨by simp [GameState.addScore], cellAt_setCell_self h3⟩
  · intro h0
    rw [winCheck, if_pos (le_of_eq h0)]
  · intro hne
    have : 0 ≤ game.state.pelletsRemaining := by rw [hgame]; exact hnn
    rw [winCheck, if_neg (by omega)]
  · refine ⟨rfl, rfl, rfl, rfl, rfl, rfl, rfl, rfl⟩

/-- Witness for C3 on a two-cell map holding one pellet: eating the pellet
takes the counter from 1 to 0, scores 10, empties the cell, and the
subsequent win check advances the level. -/
theorem c3_witness :
    ((eatPellets [[2, 0]] 19 { samplePlaying with pelletsRemaining := 1 } []
        { samplePac with x := 19/2, y := 19/2 }).2.1.pelletsRemaining =
      ({ samplePlaying with pelletsRemaining := 1 } : GameState).pelletsRemaining - 1 ↔
      (cellAt [[2, 0]] ⌊(({ samplePac with x := 19/2, y := 19/2 } : Pacman).x / 19 : ℚ)⌋
          ⌊(({ samplePac with x := 19/2, y := 19/2 } : Pacman).y / 19 : ℚ)⌋ = some 2 ∨
        cellAt [[2, 0]] ⌊(({ samplePac with x := 19/2, y := 19/2 } : Pacman).x / 19 : ℚ)⌋
          ⌊(({ samplePac with x := 19/2, y := 19/2 } : Pacman).y / 19 : ℚ)⌋ = some 3)) ∧
    (0 ≤ (eatPellets [[2, 0]] 19 { samplePlaying with pelletsRemaining := 1 } []
        { samplePac with x := 19/2, y := 19/2 }).2.1.pelletsRemaining) ∧
    winCheck 19
        { state := (eatPellets [[2, 0]] 19 { samplePlaying with pelletsRemaining := 1 } []
            { samplePac with x := 19/2, y := 19/2 }).2.1,
          gameMap := [[2, 0]], tunnelRows := [], pacman := samplePac, ghosts := [] } =
      nextLevelGame 19
        { state := (eatPellets [[2, 0]] 19 { samplePlaying with pelletsRemaining := 1 } []
            { samplePac with x := 19/2, y := 19/2 }).2.1,
          gameMap := [[2, 0]], tunnelRows := [], pacman := samplePac, ghosts := [] } := by
  have hfl : (⌊(({ samplePac with x := 19/2, y := 19/2 } : Pacman).x / 19 : ℚ)⌋ : ℤ) = 0 := by
    norm_num
  have hinv : ({ samplePlaying with pelletsRemaining := 1 } : GameState).pelletsRemaining =
      (countPellets [[2, 0]] : ℤ) := by decide
  have h := c3_pellet_count_monotone [[2, 0]] 19
    { samplePlaying with pelletsRemaining := 1 } []
    { samplePac with x := 19/2, y := 19/2 }
    { state := (eatPellets [[2, 0]] 19 { samplePlaying with pelletsRemaining := 1 } []
        { samplePac with x := 19/2, y := 19/2 }).2.1,
      gameMap := [[2, 0]], tunnelRows := [], pacman := samplePac, ghosts := [] }
    hinv rfl
  refine ⟨h.1, h.2.2.2.2.1, ?_⟩
  apply h.2.2.2.2.2.1
  have h2 : cellAt [[2, 0]]
      ⌊(({ samplePac with x := 19/2, y := 19/2 } : Pacman).x / 19 : ℚ)⌋
      ⌊(({ samplePac with x := 19/2, y := 19/2 } : Pacman).y / 19 : ℚ)⌋ = some 2 := by
    rw [hfl]
    decide
  have hp := (h.1).mpr (Or.inl h2)
  rw [hp]
  decide

/-
  Characterization of chooseGhostDirection's forEach fold.
-/

/-- chooseStep rephrased through candLegal: an illegal direction leaves the
accumulator alone, a legal one competes on squared distance. -/
theorem chooseStep_eq (m : GameMap) (gs : ℚ) (g : Ghost) (target : ℚ × ℚ)
    (exclude : Bool) (acc : ℕ × Option ℚ) (d : ℕ) :
    chooseStep m gs g target exclude acc d =
      if candLegal m gs g exclude d then
        match acc.2 with
        | none => (d, some (candDistSq g target d))
        | some b =>
          if candDistSq g target d < b then (d, some (candDistSq g target d)) else acc
      else acc := by
  rw [chooseStep, candLegal]
  by_cases h1 : (d == (g.direction + 2) % 4 && exclude) = true
  · simp [h1]
  · by_cases hv : isValidPosition m gs (ghostProbe g d).1 (ghostProbe g d).2 g.size = true <;>
      simp [h1, hv, candDistSq]

/-- A run of the fold over only-illegal directions leaves the accumulator. -/
theorem foldl_choose_illegal (m : GameMap) (gs : ℚ) (g : Ghost) (target : ℚ × ℚ)
    (exclude : Bool) (l : List ℕ) (acc : ℕ × Option ℚ)
    (hl : ∀ d ∈ l, candLegal m gs g exclude d = false) :
    l.foldl (chooseStep m gs g target exclude) acc = acc := by
  induction l generalizing acc with
  | nil => rfl
  | cons a t ih =>
    rw [List.foldl_cons, chooseStep_eq]
    simp only [hl a (List.mem_cons_self a t), Bool.false_eq_true, if_false]
    exact ih acc fun d hd => hl d (List.mem_cons_of_mem a hd)

/-- The fold run from an accumulator already holding a legal best candidate
b: the result is a legal candidate, no farther from the target than b and
than every legal listed direction, and on distance ties the earliest
direction wins (list entries are sorted above b). -/
theorem foldl_choose_some (m : GameMap) (gs : ℚ) (g : Ghost) (target : ℚ × ℚ)
    (exclude : Bool) (l : List ℕ) :
    ∀ (b : ℕ), candLegal m gs g exclude b = true →
    l.Sorted (· < ·) → (∀ d ∈ l, b < d) →
    ∃ r, l.foldl (chooseStep m gs g target exclude)
        (b, some (candDistSq g target b)) = (r, some (candDistSq g target r)) ∧
      candLegal m gs g exclude r = true ∧ (r = b ∨ r ∈ l) ∧
      candDistSq g target r ≤ candDistSq g target b ∧
      (∀ d ∈ l, candLegal m gs g exclude d = true →
        candDistSq g target r ≤ candDistSq g target d) ∧
      (candDistSq g target r = candDistSq g target b → r = b) ∧
      (∀ d ∈ l, candLegal m gs g exclude d = true →
        candDistSq g target r = candDistSq g target d → r ≤ d) := by
  induction l with
  | nil =>
    intro b hb _ _
    exact ⟨b, rfl, hb, Or.inl rfl, le_refl _, by simp, fun _ => rfl, by simp⟩
  | cons a t ih =>
    intro b hb hsort hlt
    obtain ⟨hat, hsort2⟩ := List.sorted_cons.mp hsort
    have hba : b < a := hlt a (List.mem_cons_self a t)
    rw [List.foldl_cons, chooseStep_eq]
    by_cases hla : candLegal m gs g exclude a = true
    · simp only [hla, if_true]
      by_cases hda : candDistSq g target a < candDistSq g target b
      · simp only [hda, if_true]
        obtain ⟨r, hfold, hrl, hmem, hleb, hall, heqb, htie⟩ := ih a hla hsort2 hat
        refine ⟨r, hfold, hrl, ?_, by linarith, ?_, ?_, ?_⟩
        · rcases hmem with h | h
          · exact Or.inr (h ▸ List.mem_cons_self a t)
          · exact Or.inr (List.mem_cons_of_mem a h)
        · intro d hd hld
          rcases List.mem_cons.mp hd with h | h
          · exact h ▸ hleb
          · exact hall d h hld
        · intro heq
          exact absurd heq (by linarith)
        · intro d hd hld heq
          rcases List.mem_cons.mp hd with h | h
          · subst h
            exact le_of_eq (heqb heq)
          · exact htie d h hld heq
      · simp only [hda, if_false]
        obtain ⟨r, hfold, hrl, hmem, hleb, hall, heqb, htie⟩ :=
          ih b hb hsort2 fun d hd => lt_trans hba (hat d hd)
        refine ⟨r, hfold, hrl, ?_, hleb, ?_, heqb, ?_⟩
        · rcases hmem with h | h
          · exact Or.inl h
          · exact Or.inr (List.mem_cons_of_mem a h)
        · intro d hd hld
          rcases List.mem_cons.mp hd with h | h
          · subst h
            exact le_trans hleb (not_lt.mp hda)
          · exact hall d h hld
        · intro d hd hld heq
          rcases List.mem_cons.mp hd with h | h
          · subst h
            have hrb : candDistSq g target r = candDistSq g target b :=
              le_antisymm hleb (heq ▸ not_lt.mp hda)
            exact le_of_lt (lt_of_le_of_lt (le_of_eq (heqb hrb)) hba)
          · exact htie d h hld heq
    · simp only [Bool.not_eq_true] at hla
      simp only [hla, Bool.false_eq_true, if_false]
      obtain ⟨r, hfold, hrl, hmem, hleb, hall, heqb, htie⟩ :=
        ih b hb hsort2 fun d hd => lt_trans hba (hat d hd)
      refine ⟨r, hfold, hrl, ?_, hleb, ?_, heqb, ?_⟩
      · rcases hmem with h | h
        · exact Or.inl h
        · exact Or.inr (List.mem_cons_of_mem a h)
      · intro d hd hld
        rcases List.mem_cons.mp hd with h | h
        · subst h
          exact absurd hld (by simp [hla])
        · exact hall d h hld
      · intro d hd hld heq
        rcases List.mem_cons.mp hd with h | h
        · subst h
          exact absurd hld (by simp [hla])
        · exact htie d h hld heq

/-- The fold run from the program's initial (current direction, Infinity)
accumulator: if some listed direction is legal then the result is the
earliest legal minimizer of the squared distance. -/
theorem foldl_choose_none (m : GameMap) (gs : ℚ) (g : Ghost) (target : ℚ × ℚ)
    (exclude : Bool) (l : List ℕ) :
    ∀ (b : ℕ), l.Sorted (· < ·) →
    ∀ d ∈ l, candLegal m gs g exclude d = true →
    ∃ r, l.foldl (chooseStep m gs g target exclude) (b, none) =
        (r, some (candDistSq g target r)) ∧
      candLegal m gs g exclude r = true ∧ r ∈ l ∧
      (∀ e ∈ l, candLegal m gs g exclude e = true →
        candDistSq g target r ≤ candDistSq g target e) ∧
      (∀ e ∈ l, candLegal m gs g exclude e = true →
        candDistSq g target r = candDistSq g target e → r ≤ e) := by
  induction l with
  | nil =>
    intro b _ d hd
    exact absurd hd (List.not_mem_nil d)
  | cons a t ih =>
    intro b hsort d hd hld
    obtain ⟨hat, hsort2⟩ := List.sorted_cons.mp hsort
    rw [List.foldl_cons, chooseStep_eq]
    by_cases hla : candLegal m gs g exclude a = true
    · simp only [hla, if_true]
      obtain ⟨r, hfold, hrl, hmem, hleb, hall, heqb, htie⟩ :=
        foldl_choose_some m gs g target exclude t a hla hsort2 hat
      refine ⟨r, hfold, hrl, ?_, ?_, ?_⟩
      · rcases hmem with h | h
        · exact h ▸ List.mem_cons_self a t
        · exact List.mem_cons_of_mem a h
      · intro e he hle
        rcases List.mem_cons.mp he with h | h
        · exact h ▸ hleb
        · exact hall e h hle
      · intro e he hle heq
        rcases List.mem_cons.mp he with h | h
        · subst h
          exact le_of_eq (heqb heq)
        · exact htie e h hle heq
    · simp only [Bool.not_eq_true] at hla
      simp only [hla, Bool.false_eq_true, if_false]
      have hdt : d ∈ t := by
        rcases List.mem_cons.mp hd with h | h
        · exact absurd hld (by simp [h, hla])
        · exact h
      obtain ⟨r, hfold, hrl, hmem, hall, htie⟩ := ih b hsort2 d hdt hld
      refine ⟨r, hfold, hrl, List.mem_cons_of_mem a hmem, ?_, ?_⟩
      · intro e he hle
        rcases List.mem_cons.mp he with h | h
        · exact absurd hle (by simp [h, hla])
        · exact hall e h hle
      · intro e he hle heq
        rcases List.mem_cons.mp he with h | h
        · exact absurd hle (by simp [h, hla])
        · exact htie e h hle heq

/-- C5 amended: pursuer direction re-selection runs every 0.5 seconds of
accumulated simulated time in updateGhostAI (and, per C4's code path, on a
rejected move).  It evaluates the 4 cardinal directions; the reverse of the
current heading is excluded exactly when the random draw exceeds 0.2
(modelled by the exclude oracle), with NO fallback: if every non-excluded
direction is illegal the current heading is kept even when reversing is
legal.  Among the legal candidates it picks the one minimizing the
Euclidean distance of the probe to the target (embedded on squares), ties
broken by the enumeration order right (0), down (1), left (2), up (3). -/
theorem c5_amended (m : GameMap) (gs : ℚ) (pac : Pacman) (g : Ghost) (dt : ℚ)
    (target : ℚ × ℚ) (randPt : ℚ × ℚ) (clydeChase exclude : Bool) :
    (falsyD g.lastDirectionUpdate 0 + dt ≤ 1/2 →
      (updateGhostAI m gs pac g dt randPt clydeChase exclude).direction = g.direction ∧
      (updateGhostAI m gs pac g dt randPt clydeChase exclude).lastDirectionUpdate =
        some (falsyD g.lastDirectionUpdate 0 + dt)) ∧
    (1/2 < falsyD g.lastDirectionUpdate 0 + dt →
      (updateGhostAI m gs pac g dt randPt clydeChase exclude).direction =
        chooseGhostDirection m gs g (getGhostTarget m gs pac g randPt clydeChase) exclude ∧
      (updateGhostAI m gs pac g dt randPt clydeChase exclude).lastDirectionUpdate =
        some 0) ∧
    ((∀ d : ℕ, d < 4 → candLegal m gs g exclude d = false) →
      chooseGhostDirection m gs g target exclude = g.direction) ∧
    (∀ d : ℕ, d < 4 → candLegal m gs g exclude d = true →
      candLegal m gs g exclude (chooseGhostDirection m gs g target exclude) = true ∧
      chooseGhostDirection m gs g target exclude < 4 ∧
      candDistSq g target (chooseGhostDirection m gs g target exclude) ≤
        candDistSq g target d ∧
      (candDistSq g target d =
          candDistSq g target (chooseGhostDirection m gs g target exclude) →
        chooseGhostDirection m gs g target exclude ≤ d)) := by
  have hsort : ([0, 1, 2, 3] : List ℕ).Sorted (· < ·) := by decide
  obtain ⟨hdir, hlu, hx, hy, hsp, hsz⟩ := ghostScheduleStep_fields g dt
  refine ⟨?_, ?_, ?_, ?_⟩
  · intro h
    rw [updateGhostAI, hlu, if_neg (not_lt.mpr h)]
    exact ⟨hdir, rfl⟩
  · intro h
    rw [updateGhostAI, hlu, if_pos h]
    exact ⟨chooseGhostDirection_congr m gs _ exclude hdir hx hy hsp hsz, rfl⟩
  · intro hall
    have hfold := foldl_choose_illegal m gs g target exclude [0, 1, 2, 3]
      (g.direction, none) (fun d hd => hall d (by fin_cases hd <;> decide))
    rw [chooseGhostDirection, hfold]
  · intro d hd hld
    have hdl : d ∈ ([0, 1, 2, 3] : List ℕ) := by
      interval_cases d <;> decide
    obtain ⟨r, hfold, hrl, hrm, hall, htie⟩ :=
      foldl_choose_none m gs g target exclude [0, 1, 2, 3] g.direction hsort d hdl hld
    have hr : chooseGhostDirection m gs g target exclude = r := by
      rw [chooseGhostDirection, hfold]
    have hr4 : r < 4 := by fin_cases hrm <;> decide
    rw [hr]
    exact ⟨hrl, hr4, hall d hdl hld, fun heq => htie d hdl hld heq.symm⟩

/-- A three-by-three dead end: the center-row cell (1,1) is open with the
only exit to its left. -/
def deadEndMap : GameMap := [[1, 1, 1], [0, 0, 1], [1, 1, 1]]

/-- A pursuer at the center of the 3×3 map, heading right (so its reverse
is left). -/
def centerGhost : Ghost := { sampleGhost with x := 57/2, y := 57/2 }

/-- In the dead end, the reverse direction's probe is the only valid one. -/
theorem centerGhost_probe_left_valid :
    isValidPosition deadEndMap 19 (ghostProbe centerGhost 2).1
      (ghostProbe centerGhost 2).2 centerGhost.size = true := by
  norm_num [isValidPosition, ghostProbe, dirVec, cellAt, canvasW, canvasH,
    mapCols, deadEndMap, centerGhost, sampleGhost]

/-- With the random draw excluding the reverse, every direction is rejected
in the dead end: right, down and up probe into walls and left is the
excluded reverse. -/
theorem centerGhost_all_illegal (d : ℕ) (hd : d < 4) :
    candLegal deadEndMap 19 centerGhost true d = false := by
  interval_cases d <;>
    norm_num +decide [candLegal, isValidPosition, ghostProbe, dirVec, cellAt,
      canvasW, canvasH, mapCols, deadEndMap, centerGhost, sampleGhost]

/-- On the fully open 3×3 map the reverse probe is legal when the random
draw does not exclude it. -/
theorem centerGhost_open_left_legal :
    candLegal [[0, 0, 0], [0, 0, 0], [0, 0, 0]] 19 centerGhost false 2 = true := by
  norm_num +decide [candLegal, isValidPosition, ghostProbe, dirVec, cellAt,
    canvasW, canvasH, mapCols, centerGhost, sampleGhost]

/-- C5 counterexample: a pursuer heading right in a dead end whose only
exit is backwards, with the random draw excluding the reverse: the claim
says the reverse must not be excluded because no other legal direction
exists, hence direction 2 should be chosen; the program instead keeps the
blocked current heading 0. -/
theorem c5_counterexample :
    isValidPosition deadEndMap 19 (ghostProbe centerGhost 2).1
      (ghostProbe centerGhost 2).2 centerGhost.size = true ∧
    (∀ d : ℕ, d < 4 → candLegal deadEndMap 19 centerGhost true d = false) ∧
    chooseGhostDirection deadEndMap 19 centerGhost (0, 57/2) true = 0 ∧
    centerGhost.direction = 0 ∧
    (0 : ℕ) ≠ 2 := by
  refine ⟨centerGhost_probe_left_valid, centerGhost_all_illegal, ?_, by decide, by decide⟩
  have hfold := foldl_choose_illegal deadEndMap 19 centerGhost (0, 57/2) true
    [0, 1, 2, 3] (centerGhost.direction, none)
    (fun d hd => centerGhost_all_illegal d (by fin_cases hd <;> decide))
  rw [chooseGhostDirection, hfold]
  decide

/-- Witness for C5 amended at concrete inputs: the half-second decision
clock below threshold leaves the heading alone; in the dead end, with the
reverse excluded, the heading is kept; on the open map with the reverse
admitted, the chosen direction is legal, in range, and at least as close
to the target as the reverse candidate. -/
theorem c5_witness :
    ((updateGhostAI [[0]] 19 samplePac
        { sampleGhost with lastDirectionUpdate := some (1/10) } (1/10) (0, 0)
        true true).direction =
      ({ sampleGhost with lastDirectionUpdate := some (1/10) } : Ghost).direction) ∧
    chooseGhostDirection deadEndMap 19 centerGhost (0, 57/2) true =
      centerGhost.direction ∧
    (candLegal [[0, 0, 0], [0, 0, 0], [0, 0, 0]] 19 centerGhost false
        (chooseGhostDirection [[0, 0, 0], [0, 0, 0], [0, 0, 0]] 19 centerGhost
          (0, 57/2) false) = true ∧
      chooseGhostDirection [[0, 0, 0], [0, 0, 0], [0, 0, 0]] 19 centerGhost
        (0, 57/2) false < 4 ∧
      candDistSq centerGhost (0, 57/2)
          (chooseGhostDirection [[0, 0, 0], [0, 0, 0], [0, 0, 0]] 19 centerGhost
            (0, 57/2) false) ≤
        candDistSq centerGhost (0, 57/2) 2) := by
  have hlu : falsyD ({ sampleGhost with lastDirectionUpdate := some (1/10) } : Ghost).lastDirectionUpdate 0 + (1/10 : ℚ) ≤ 1/2 := by
    norm_num [falsyD]
  have h1 := (c5_amended [[0]] 19 samplePac
    { sampleGhost with lastDirectionUpdate := some (1/10) } (1/10) (0, 0) (0, 0)
    true true).1 hlu
  have h2 := (c5_amended deadEndMap 19 samplePac centerGhost (1/10) (0, 57/2) (0, 0)
    true true).2.2.1 centerGhost_all_illegal
  have h3 := (c5_amended [[0, 0, 0], [0, 0, 0], [0, 0, 0]] 19 samplePac centerGhost
    (1/10) (0, 57/2) (0, 0) true false).2.2.2 2 (by decide) centerGhost_open_left_legal
  exact ⟨h1.1, h2, h3.1, h3.2.1, h3.2.2.1⟩

end PacmanGameJs
